import Mathlib

/-!
Shallow embedding of the simulation kernel of the `mathworld` repository
(TypeScript), covering the relation graph (`src/core/UtilityAI.ts`,
`RelationGraph`), the world state (`src/core/WorldState.ts`), the utility
AI condition evaluator, and the Economy / Ecosystem / Disease simulators.

JavaScript `Map`s are modelled as association lists in insertion order
(`Map.set` replaces in place or appends, `Map.get` finds the first match),
JS numbers as `ℚ` (as `ℝ` in the Economy module, whose price formula uses a
real exponent), and every call to `Math.random()` as an oracle value drawn
from `[0,1)` supplied as an explicit argument.
-/

namespace MathWorld

/-- JS `Map` lookup: first entry with the given key. -/
def lookupA {β : Type} : List (String × β) → String → Option β
  | [], _ => none
  | (k', v) :: rest, k => if k' = k then some v else lookupA rest k

/-- JS `Map.set`: replace the first entry with the key in place, else append. -/
def setA {β : Type} : List (String × β) → String → β → List (String × β)
  | [], k, v => [(k, v)]
  | (k', v') :: rest, k, v =>
      if k' = k then (k, v) :: rest else (k', v') :: setA rest k v

/-- Update every value of a JS `Map` in place (an iteration that assigns a
new value computed from the old one to each entry). -/
def mapVals {β γ : Type} (f : β → γ) (l : List (String × β)) : List (String × γ) :=
  l.map (fun p => (p.1, f p.2))

/-- Like `mapVals`, for per-entry updates that also read the entry's key. -/
def mapValsK {β γ : Type} (f : String → β → γ) (l : List (String × β)) :
    List (String × γ) :=
  l.map (fun p => (p.1, f p.1 p.2))

/-- JS `Set.add` on a list kept in first-insertion order. -/
def insertNode (l : List String) (x : String) : List String :=
  if x ∈ l then l else l ++ [x]

/-- Reflexive-transitive closure of a step relation, used to talk about
arbitrary finite call sequences. -/
inductive Star {α : Type} (r : α → α → Prop) : α → α → Prop
  | refl (a : α) : Star r a a
  | tail {a b c : α} : Star r a b → r b c → Star r a c

/-! ## Relation graph (`src/core/RelationGraph.ts`, bundled in UtilityAI.ts) -/

/-- `Relation` record: directed edge payload. -/
structure Relation where
  trust : ℚ
  fear : ℚ
  respect : ℚ
  debt : ℚ
  secretShared : Bool
  history : List String
  deriving DecidableEq

/-- `DEFAULT_RELATION`. -/
def DEFAULT_RELATION : Relation :=
  { trust := 0, fear := 0, respect := 0, debt := 0, secretShared := false, history := [] }

/-- `edges[from][to] = Relation`, keyed by source id. -/
abbrev RelationGraph := List (String × List (String × Relation))

/-- TS `Partial<Relation>`: each field optionally present. -/
structure RelationPatch where
  trust : Option ℚ := none
  fear : Option ℚ := none
  respect : Option ℚ := none
  debt : Option ℚ := none
  secretShared : Option Bool := none
  history : Option (List String) := none

/-- `getRelation(from, to)`: read-or-create-default.  Returns the (possibly
extended) graph together with the relation, modelling the in-place `Map`
insertion of the source. -/
def getRelation (g : RelationGraph) (f t : String) : RelationGraph × Relation :=
  match lookupA g f with
  | none => (setA g f [(t, DEFAULT_RELATION)], DEFAULT_RELATION)
  | some es =>
    match lookupA es t with
    | none => (setA g f (es ++ [(t, DEFAULT_RELATION)]), DEFAULT_RELATION)
    | some r => (g, r)

/-- Store a relation at `from → to` (the write-back of the source's in-place
object mutation). -/
def setRel (g : RelationGraph) (f t : String) (r : Relation) : RelationGraph :=
  match lookupA g f with
  | none => setA g f [(t, r)]
  | some es => setA g f (setA es t r)

/-- Pure read of an edge: the stored relation, if present. -/
def readRelOpt (g : RelationGraph) (f t : String) : Option Relation :=
  (lookupA g f).bind (fun es => lookupA es t)

/-- Pure read of an edge with the lazy default (what `getRelation` returns). -/
def readRel (g : RelationGraph) (f t : String) : Relation :=
  (readRelOpt g f t).getD DEFAULT_RELATION

/-- `Object.assign(relation, updates)`. -/
def assignPatch (r : Relation) (u : RelationPatch) : Relation :=
  { trust := u.trust.getD r.trust
    fear := u.fear.getD r.fear
    respect := u.respect.getD r.respect
    debt := u.debt.getD r.debt
    secretShared := u.secretShared.getD r.secretShared
    history := u.history.getD r.history }

/-- The clamp applied after every relation write: trust to [-1,1],
fear to [0,1], respect to [-1,1]. -/
def clampRelation (r : Relation) : Relation :=
  { r with
    trust := max (-1) (min 1 r.trust)
    fear := max 0 (min 1 r.fear)
    respect := max (-1) (min 1 r.respect) }

/-- `updateRelation(from, to, updates)`. -/
def updateRelation (g : RelationGraph) (f t : String) (u : RelationPatch) :
    RelationGraph :=
  let gr := getRelation g f t
  setRel gr.1 f t (clampRelation (assignPatch gr.2 u))

/-- `modifyRelation(from, to, delta)`: delta-apply then clamp. -/
def modifyRelation (g : RelationGraph) (f t : String) (d : RelationPatch) :
    RelationGraph :=
  let gr := getRelation g f t
  let r := gr.2
  let r1 : Relation :=
    { r with
      trust := r.trust + d.trust.getD 0
      fear := r.fear + d.fear.getD 0
      respect := r.respect + d.respect.getD 0
      debt := r.debt + d.debt.getD 0
      secretShared := d.secretShared.getD r.secretShared }
  setRel gr.1 f t (clampRelation r1)

/-- `getFriends(id)`: outgoing edges with trust > 0, in edge-insertion order. -/
def getFriends (g : RelationGraph) (id : String) : List String :=
  match lookupA g id with
  | none => []
  | some es => (es.filter (fun p => decide (0 < p.2.trust))).map (fun p => p.1)

/-- The node set collected at the top of `getClusters` / `getMostInfluential`:
every source id, then every target id, in first-insertion order. -/
def allNodesOf (g : RelationGraph) : List String :=
  g.foldl (fun acc p => p.2.foldl (fun a q => insertNode a q.1) (insertNode acc p.1)) []

/-- Fuel bound for the BFS of `getClusters`: strictly more than the number of
map entries plus edges (each loop iteration pops one queue element, and pushes
never exceed the friend-edge count). -/
def graphSize (g : RelationGraph) : Nat :=
  g.foldl (fun n p => n + 1 + p.2.length) 1

/-- The inner `while (queue.length > 0)` loop of `getClusters`: pops `current`,
skips it if visited, otherwise marks it visited, appends it to the cluster and
pushes every friend whose reverse trust exceeds the threshold.  The graph is
threaded because `getRelation(friend, current)` lazily inserts missing edges. -/
def bfsLoop (threshold : ℚ) :
    Nat → RelationGraph → List String → List String → List String →
    RelationGraph × List String × List String
  | 0, g, _, visited, cluster => (g, visited, cluster)
  | fuel + 1, g, queue, visited, cluster =>
    match queue with
    | [] => (g, visited, cluster)
    | current :: rest =>
      if current ∈ visited then bfsLoop threshold fuel g rest visited cluster
      else
        let visited' := visited ++ [current]
        let cluster' := cluster ++ [current]
        let friends := getFriends g current
        let step := friends.foldl
          (fun (acc : RelationGraph × List String) friend =>
            let gr := getRelation acc.1 friend current
            if threshold < gr.2.trust ∧ friend ∉ visited' then (gr.1, acc.2 ++ [friend])
            else (gr.1, acc.2))
          (g, rest)
        bfsLoop threshold fuel step.1 step.2 visited' cluster'

/-- `getClusters(threshold)`: BFS seeded from every unvisited node; clusters of
size > 1 are kept, with `visited` persisting across seeds. -/
def getClusters (g : RelationGraph) (threshold : ℚ) : List (List String) :=
  let nodes := allNodesOf g
  let fuel := graphSize g
  let res := nodes.foldl
    (fun (acc : RelationGraph × List String × List (List String)) node =>
      if node ∈ acc.2.1 then acc
      else
        let out := bfsLoop threshold fuel acc.1 [node] acc.2.1 []
        if 1 < out.2.2.length then (out.1, out.2.1, acc.2.2 ++ [out.2.2])
        else (out.1, out.2.1, acc.2.2))
    (g, [], [])
  res.2.2

/-- `getCentrality(id)`: out-degree plus in-degree. -/
def getCentrality (g : RelationGraph) (id : String) : Nat :=
  let out := match lookupA g id with
    | some es => es.length
    | none => 0
  let inc := g.foldl (fun n p => if (lookupA p.2 id).isSome then n + 1 else n) 0
  out + inc

/-- Total number of directed edges stored in the graph (the `edgeCount`
accumulator of `getStats`). -/
def edgeCountG (g : RelationGraph) : Nat :=
  (g.map (fun p => p.2.length)).sum

/-- The `totalTrust` accumulator of `getStats`. -/
def totalTrustG (g : RelationGraph) : ℚ :=
  (g.map (fun p => (p.2.map (fun e => e.2.trust)).sum)).sum

/-- The `totalFear` accumulator of `getStats`. -/
def totalFearG (g : RelationGraph) : ℚ :=
  (g.map (fun p => (p.2.map (fun e => e.2.fear)).sum)).sum

/-- `getStats()` result record. -/
structure GraphStats where
  nodeCount : Nat
  edgeCount : Nat
  avgTrust : ℚ
  avgFear : ℚ
  deriving DecidableEq

/-- `getStats()`: aggregate node/edge counts and mean trust/fear over all
stored edges. -/
def getStats (g : RelationGraph) : GraphStats :=
  let nodes := allNodesOf g
  let edgeCount := edgeCountG g
  { nodeCount := nodes.length
    edgeCount := edgeCount
    avgTrust := if 0 < edgeCount then totalTrustG g / edgeCount else 0
    avgFear := if 0 < edgeCount then totalFearG g / edgeCount else 0 }

/-! ## World state (`src/core/WorldState.ts`) and core types (`types.ts`) -/

/-- `Personality`. -/
structure Personality where
  ambition : ℚ
  loyalty : ℚ
  morality : ℚ
  courage : ℚ
  cunning : ℚ
  deriving DecidableEq

/-- `Emotion`. -/
structure Emotion where
  trust : ℚ
  fear : ℚ
  anger : ℚ
  joy : ℚ
  despair : ℚ
  deriving DecidableEq

/-- TS `Partial<Emotion>` (the `emotionalImpact` of a memory entry). -/
structure EmotionPatch where
  trust : Option ℚ := none
  fear : Option ℚ := none
  anger : Option ℚ := none
  joy : Option ℚ := none
  despair : Option ℚ := none
  deriving DecidableEq

/-- `InterpretedEvent` (a memory entry). -/
structure InterpretedEvent where
  eventId : String
  interpretation : String
  emotionalImpact : EmotionPatch
  timestamp : ℤ
  deriving DecidableEq

/-- `Character`.  The optional combat/levelling fields (`stats`, `equipment`,
`skills`, `level`, ...) belong to the out-of-scope combat layer and are not
read by any kernel code modelled here, so they are omitted. -/
structure Character where
  id : String
  name : String
  title : Option String
  personality : Personality
  emotion : Emotion
  location : String
  resources : ℚ
  power : ℚ
  memory : List InterpretedEvent
  beliefs : List (String × ℚ)
  isPlayer : Bool
  deriving DecidableEq

/-- `Location.type` enumeration. -/
inductive LocationType
  | city | village | wilderness | dungeon | castle | forest | farm | temple
  | island | building
  deriving DecidableEq

/-- `Location`. -/
structure Location where
  id : String
  name : String
  type : LocationType
  resources : ℚ
  population : ℚ
  stability : ℚ
  connectedTo : List String
  owner : Option String
  dangerLevel : Option ℚ
  description : Option String
  deriving DecidableEq

/-- `EventType` enumeration. -/
inductive EventType
  | dialogue | trade | combat | betrayal | alliance | death | discovery
  | natural_disaster | plague | war_declared | custom
  deriving DecidableEq

/-- `Effect.type` enumeration. -/
inductive EffectType
  | emotion | relation | resource | location | event | stat
  deriving DecidableEq

/-- `Effect`.  Its `change` is typed `number | string | boolean` in TS, but
every kernel consumer casts it with `as number`; it is modelled as `ℚ`. -/
structure Effect where
  type : EffectType
  target : String
  field : String
  change : ℚ
  isRelative : Bool
  deriving DecidableEq

/-- `GameEvent`. -/
structure GameEvent where
  id : String
  type : EventType
  timestamp : ℤ
  participants : List String
  location : String
  description : String
  effects : List Effect
  isPublic : Bool
  witnesses : List String
  deriving DecidableEq

/-- `GlobalState.season` enumeration. -/
inductive Season
  | spring | summer | autumn | winter
  deriving DecidableEq

/-- `GlobalState`. -/
structure GlobalState where
  warActive : Bool
  economyIndex : ℚ
  plagueActive : Bool
  season : Season
  dayOfYear : ℤ
  deriving DecidableEq

/-- `WorldState`: tick counter, character and location tables, the relation
graph, the append-only history, and the global record. -/
structure WorldState where
  time : ℤ
  characters : List (String × Character)
  locations : List (String × Location)
  relations : RelationGraph
  history : List GameEvent
  globalState : GlobalState
  deriving DecidableEq

/-- The `DECAY_RATE` constant of `applyEmotionDecay` (0.95). -/
def DECAY_RATE : ℚ := 95 / 100

/-- The per-character decay step: anger/fear/joy/despair are multiplied by
`DECAY_RATE`; trust is left untouched. -/
def decayEmotion (e : Emotion) : Emotion :=
  { e with
    anger := e.anger * DECAY_RATE
    fear := e.fear * DECAY_RATE
    joy := e.joy * DECAY_RATE
    despair := e.despair * DECAY_RATE }

/-- `applyEmotionDecay()`: decay every character's emotions. -/
def applyEmotionDecay (w : WorldState) : WorldState :=
  { w with
    characters :=
      mapVals (fun c => { c with emotion := decayEmotion c.emotion }) w.characters }

/-- `advanceTime()`: increment tick and day-of-year (wrapping 365 → 1),
recompute the season from the fixed day ranges, then apply emotion decay. -/
def advanceTime (w : WorldState) : WorldState :=
  let d0 := w.globalState.dayOfYear + 1
  let d := if 365 < d0 then 1 else d0
  let season :=
    if d ≤ 90 then Season.spring
    else if d ≤ 180 then Season.summer
    else if d ≤ 270 then Season.autumn
    else Season.winter
  applyEmotionDecay
    { w with
      time := w.time + 1
      globalState := { w.globalState with dayOfYear := d, season := season } }

/-- Read an emotion field by its JS key name. -/
def getEmotionField (e : Emotion) (field : String) : ℚ :=
  if field = "trust" then e.trust
  else if field = "fear" then e.fear
  else if field = "anger" then e.anger
  else if field = "joy" then e.joy
  else if field = "despair" then e.despair
  else 0

/-- Write an emotion field by its JS key name. -/
def setEmotionField (e : Emotion) (field : String) (v : ℚ) : Emotion :=
  if field = "trust" then { e with trust := v }
  else if field = "fear" then { e with fear := v }
  else if field = "anger" then { e with anger := v }
  else if field = "joy" then { e with joy := v }
  else if field = "despair" then { e with despair := v }
  else e

/-- Whether a string is one of the `Emotion` keys (the `field in
character.emotion` check). -/
def isEmotionField (field : String) : Bool :=
  field = "trust" || field = "fear" || field = "anger" || field = "joy" || field = "despair"

/-- `applyEmotionEffect`: relative or absolute write, clamped to [0,1];
dropped when the target character does not exist or the field is not an
emotion key. -/
def applyEmotionEffect (w : WorldState) (effect : Effect) : WorldState :=
  match lookupA w.characters effect.target with
  | none => w
  | some character =>
    if isEmotionField effect.field then
      let old := getEmotionField character.emotion effect.field
      let v := if effect.isRelative then old + effect.change else effect.change
      let v' := max 0 (min 1 v)
      { w with
        characters := setA w.characters effect.target
          { character with emotion := setEmotionField character.emotion effect.field v' } }
    else w

/-- JS `String.prototype.split(':')`, written as structural recursion over
the character list so that it evaluates. -/
def splitColonAux : List Char → List Char → List String
  | [], acc => [String.mk acc.reverse]
  | c :: rest, acc =>
    if c = ':' then String.mk acc.reverse :: splitColonAux rest []
    else splitColonAux rest (c :: acc)

/-- JS `target.split(':')`. -/
def jsSplitColon (s : String) : List String :=
  splitColonAux s.toList []

/-- The numeric `Relation` keys writable by `applyRelationEffect`
(`field in relation && typeof relation[field] === 'number'`). -/
def isNumericRelationField (field : String) : Bool :=
  field = "trust" || field = "fear" || field = "respect" || field = "debt"

/-- Apply a numeric change to one `Relation` field by its JS key name. -/
def setRelationField (r : Relation) (field : String) (isRelative : Bool) (change : ℚ) :
    Relation :=
  if field = "trust" then { r with trust := if isRelative then r.trust + change else change }
  else if field = "fear" then { r with fear := if isRelative then r.fear + change else change }
  else if field = "respect" then { r with respect := if isRelative then r.respect + change else change }
  else if field = "debt" then { r with debt := if isRelative then r.debt + change else change }
  else r

/-- `applyRelationEffect`: the composite target `"fromId:toId"` is split at
`':'`; a target without `':'` leaves `toId` as JS `undefined`, modelled by the
reserved key `"undefined"`.  The relation is fetched (lazily created), the
numeric field mutated, and the result written back through `updateRelation`
(which re-assigns every field and clamps). -/
def applyRelationEffect (w : WorldState) (effect : Effect) : WorldState :=
  let parts := jsSplitColon effect.target
  let fromId := parts.getD 0 ""
  let toId := parts.getD 1 "undefined"
  let gr := getRelation w.relations fromId toId
  let r := gr.2
  let r' :=
    if isNumericRelationField effect.field then
      setRelationField r effect.field effect.isRelative effect.change
    else r
  { w with
    relations := setRel gr.1 fromId toId
      (clampRelation
        (assignPatch r'
          { trust := some r'.trust, fear := some r'.fear, respect := some r'.respect
            debt := some r'.debt, secretShared := some r'.secretShared
            history := some r'.history })) }

/-- `applyResourceEffect`: dropped when the target character does not exist. -/
def applyResourceEffect (w : WorldState) (effect : Effect) : WorldState :=
  match lookupA w.characters effect.target with
  | none => w
  | some character =>
    let v := if effect.isRelative then character.resources + effect.change else effect.change
    { w with characters := setA w.characters effect.target { character with resources := v } }

/-- `applyStatEffect`: only the `"power"` field is handled; dropped when the
target character does not exist. -/
def applyStatEffect (w : WorldState) (effect : Effect) : WorldState :=
  match lookupA w.characters effect.target with
  | none => w
  | some character =>
    if effect.field = "power" then
      let v := if effect.isRelative then character.power + effect.change else effect.change
      { w with characters := setA w.characters effect.target { character with power := v } }
    else w

/-- `applyEffect(effect)`: typed dispatcher; `location` and `event` effect
kinds have no case in the source switch and fall through unchanged. -/
def applyEffect (w : WorldState) (effect : Effect) : WorldState :=
  match effect.type with
  | .emotion => applyEmotionEffect w effect
  | .relation => applyRelationEffect w effect
  | .resource => applyResourceEffect w effect
  | .stat => applyStatEffect w effect
  | .location => w
  | .event => w

/-- `getAllCharacters()`: the table's values in insertion order. -/
def getAllCharacters (w : WorldState) : List Character :=
  w.characters.map (fun p => p.2)

/-- `getCharactersAt(locationId)`. -/
def getCharactersAt (w : WorldState) (locationId : String) : List Character :=
  (getAllCharacters w).filter (fun c => decide (c.location = locationId))

/-! ## UtilityAI condition evaluation (`src/core/UtilityAI.ts`) -/

/-- `Condition.type` enumeration. -/
inductive CondType
  | stat | relation | location | resource | event | custom
  deriving DecidableEq

/-- The comparison operator union `'>' | '<' | '==' | '>=' | '<=' | '!='`. -/
inductive CondOp
  | gt | lt | eq | ge | le | ne
  deriving DecidableEq

/-- A runtime JS value of type `number | string | boolean`. -/
inductive JSVal
  | num (q : ℚ)
  | str (s : String)
  | bool (b : Bool)
  deriving DecidableEq

/-- `Condition`. -/
structure Condition where
  type : CondType
  target : Option String
  operator : CondOp
  value : JSVal
  field : Option String
  deriving DecidableEq

/-- JS numeric coercion of the values reachable here: booleans become 0/1.
A relational comparison whose operands mix a string with a non-string is
modelled as `none` (JS would coerce the string through `ToNumber`, which for
the non-numeric id/field strings used by the kernel yields `NaN`, making the
comparison false). -/
def jsValNum : JSVal → Option ℚ
  | .num q => some q
  | .bool b => some (if b then 1 else 0)
  | .str _ => none

/-- JS `<` on two runtime values (string-string compares lexicographically,
otherwise numeric coercion; a failed coercion means false). -/
def jsLtVal : JSVal → JSVal → Bool
  | .str a, .str b => decide (a < b)
  | a, b =>
    match jsValNum a, jsValNum b with
    | some x, some y => decide (x < y)
    | _, _ => false

/-- `compareValues(a, op, b)`: relational operators with JS coercion,
`==`/`!=` as strict equality. -/
def compareValues (a : JSVal) (op : CondOp) (b : JSVal) : Bool :=
  match op with
  | .gt => jsLtVal b a
  | .lt => jsLtVal a b
  | .ge => !jsLtVal a b
  | .le => !jsLtVal b a
  | .eq => decide (a = b)
  | .ne => decide (a ≠ b)

/-- `getStatValue(character, field)`: personality keys first, then emotion
keys, then `power`/`resources`, else 0. -/
def getStatValue (character : Character) (field : String) : ℚ :=
  if field = "ambition" then character.personality.ambition
  else if field = "loyalty" then character.personality.loyalty
  else if field = "morality" then character.personality.morality
  else if field = "courage" then character.personality.courage
  else if field = "cunning" then character.personality.cunning
  else if isEmotionField field then getEmotionField character.emotion field
  else if field = "power" then character.power
  else if field = "resources" then character.resources
  else 0

/-- `getRelationValue(fromId, toId, field)`: reads the (lazily defaulted)
relation; `secretShared` is also a `Relation` key and is returned as the raw
boolean (the TS `as number` cast is a no-op at runtime); `history` is a key
too, but no kernel condition addresses it and the array value is modelled by
the 0 fallback. -/
def getRelationValue (g : RelationGraph) (fromId toId field : String) : JSVal :=
  let relation := (getRelation g fromId toId).2
  if field = "trust" then .num relation.trust
  else if field = "fear" then .num relation.fear
  else if field = "respect" then .num relation.respect
  else if field = "debt" then .num relation.debt
  else if field = "secretShared" then .bool relation.secretShared
  else .num 0

/-- `checkCondition(character, condition, targetId)`.  The `default` branch of
the source switch returns `true`; a missing `condition.field` reaches the
lookups as JS `undefined`, which matches no key, modelled by `""`. -/
def checkCondition (w : WorldState) (character : Character) (condition : Condition)
    (targetId : Option String) : Bool :=
  match condition.type with
  | .stat =>
    compareValues (.num (getStatValue character (condition.field.getD "")))
      condition.operator condition.value
  | .relation =>
    match targetId with
    | none => false
    | some t =>
      compareValues (getRelationValue w.relations character.id t (condition.field.getD ""))
        condition.operator condition.value
  | .resource => compareValues (.num character.resources) condition.operator condition.value
  | .location => compareValues (.str character.location) condition.operator condition.value
  | .event => true
  | .custom => true

/-- `checkConditions(character, conditions, targetId)`: all conditions must
pass. -/
def checkConditions (w : WorldState) (character : Character)
    (conditions : List Condition) (targetId : Option String) : Bool :=
  conditions.all (fun condition => checkCondition w character condition targetId)

/-! ## Disease (`Disease.ts`, `src/unnamed/part_006`) -/

/-- `DiseaseState` enumeration. -/
inductive DiseaseState
  | susceptible | exposed | infected | recovered | dead
  deriving DecidableEq

/-- `DiseaseType`. -/
structure DiseaseType where
  id : String
  name : String
  transmissionRate : ℚ
  recoveryRate : ℚ
  mortalityRate : ℚ
  incubationPeriod : ℤ
  immunityDuration : ℤ
  deriving DecidableEq

/-- `HealthStatus`. -/
structure HealthStatus where
  characterId : String
  state : DiseaseState
  diseaseId : Option String
  infectedTurn : ℤ
  exposedTurn : ℤ
  recoveredTurn : ℤ
  deriving DecidableEq

/-- `rollSuccess(probability)` given a draw of `Math.random()`. -/
def rollSuccess (probability draw : ℚ) : Bool :=
  decide (draw < probability)

/-- `updateIndividualHealth(characterId, status, currentTurn)`: the per-state
transition; `rd` and `md` are the `Math.random()` draws of the recovery and
mortality rolls.  Statuses without a disease (or with an unknown disease id)
are untouched; `susceptible` and `dead` have no case in the source switch. -/
def updateIndividualHealth (diseases : List (String × DiseaseType))
    (status : HealthStatus) (currentTurn : ℤ) (rd md : ℚ) : HealthStatus :=
  match status.diseaseId with
  | none => status
  | some dId =>
    match lookupA diseases dId with
    | none => status
    | some disease =>
      match status.state with
      | .exposed =>
        if disease.incubationPeriod ≤ currentTurn - status.exposedTurn then
          { status with state := .infected, infectedTurn := currentTurn }
        else status
      | .infected =>
        if rollSuccess disease.recoveryRate rd then
          { status with state := .recovered, recoveredTurn := currentTurn }
        else if rollSuccess disease.mortalityRate md then
          { status with state := .dead }
        else status
      | .recovered =>
        if 0 < disease.immunityDuration then
          if disease.immunityDuration ≤ currentTurn - status.recoveredTurn then
            { status with state := .susceptible, diseaseId := none }
          else status
        else status
      | .susceptible => status
      | .dead => status

/-- The effect of `infect(characterId, diseaseId)` on one status record:
only a susceptible character is moved to exposed. -/
def infectStatus (status : HealthStatus) (diseaseId : String) (time : ℤ) :
    Bool × HealthStatus :=
  if status.state = .susceptible then
    (true, { status with state := .exposed, diseaseId := some diseaseId, exposedTurn := time })
  else (false, status)

/-- The effect of `treat(characterId, effectiveness)` on one status record:
an infected character recovers when the roll succeeds. -/
def treatStatus (status : HealthStatus) (effectiveness draw : ℚ) (time : ℤ) :
    Bool × HealthStatus :=
  if status.state = .infected then
    if rollSuccess effectiveness draw then
      (true, { status with state := .recovered, recoveredTurn := time })
    else (false, status)
  else (false, status)

/-- The disease system's own state: per-character statuses, the disease
catalog, and the outbreak set. -/
structure DiseaseSystem where
  healthStatuses : List (String × HealthStatus)
  diseases : List (String × DiseaseType)
  activeOutbreaks : List String
  deriving DecidableEq

/-- `contactFactor = 0.5 + (trust + 1) * 0.25`. -/
def contactFactor (trust : ℚ) : ℚ :=
  1 / 2 + (trust + 1) * (1 / 4)

/-- The body of `spreadDisease`'s inner loop over the co-located characters
of one infected `character`: roll transmission against each susceptible
neighbour, threading the graph through `getRelation`'s lazy insertion. -/
def spreadInner (hs : List (String × HealthStatus)) (transDraw : String → String → ℚ)
    (character : Character) (disease : DiseaseType)
    (acc2 : RelationGraph × List (String × String)) (nearby : Character) :
    RelationGraph × List (String × String) :=
  if nearby.id = character.id then acc2
  else
    match lookupA hs nearby.id with
    | none => acc2
    | some nearbyStatus =>
      if nearbyStatus.state = .susceptible then
        let gr := getRelation acc2.1 character.id nearby.id
        if rollSuccess (disease.transmissionRate * contactFactor gr.2.trust)
            (transDraw character.id nearby.id) then
          (gr.1, acc2.2 ++ [(nearby.id, disease.id)])
        else (gr.1, acc2.2)
      else acc2

/-- The body of `spreadDisease`'s outer loop over all characters: infected
characters with a known disease roll against everyone at their location. -/
def spreadOuter (w : WorldState) (hs : List (String × HealthStatus))
    (diseases : List (String × DiseaseType)) (transDraw : String → String → ℚ)
    (acc : RelationGraph × List (String × String)) (character : Character) :
    RelationGraph × List (String × String) :=
  match lookupA hs character.id with
  | none => acc
  | some status =>
    if status.state = .infected then
      match lookupA diseases (status.diseaseId.getD "") with
      | none => acc
      | some disease =>
        (getCharactersAt w character.location).foldl
          (spreadInner hs transDraw character disease) acc
    else acc

/-- `spreadDisease()`: every infected character rolls transmission against
every co-located susceptible character; `getRelation` lazily inserts missing
edges, so the graph is threaded.  Returns the mutated graph and the
`newInfections` list in roll order; `transDraw` supplies the `Math.random()`
draw for each ordered pair. -/
def spreadDisease (w : WorldState) (hs : List (String × HealthStatus))
    (diseases : List (String × DiseaseType)) (transDraw : String → String → ℚ) :
    RelationGraph × List (String × String) :=
  (getAllCharacters w).foldl (spreadOuter w hs diseases transDraw) (w.relations, [])

/-- `infect(characterId, diseaseId)` on the system state. -/
def infectSystem (ds : DiseaseSystem) (time : ℤ) (characterId diseaseId : String) :
    DiseaseSystem :=
  match lookupA ds.healthStatuses characterId with
  | none => ds
  | some status =>
    let ir := infectStatus status diseaseId time
    if ir.1 then
      { ds with
        healthStatuses := setA ds.healthStatuses characterId ir.2
        activeOutbreaks := insertNode ds.activeOutbreaks diseaseId }
    else ds

/-- `getStats()` state counts (the `r0` estimate is not needed by any claim
and is omitted from the record). -/
def diseaseStateCount (hs : List (String × HealthStatus)) (s : DiseaseState) : ℚ :=
  ((hs.filter (fun p => decide (p.2.state = s))).length : ℚ)

/-- `updateGlobalPlagueState()`: sets `plagueActive` when
`(exposed + infected) / max(1, population)` exceeds 0.1 (dead characters are
not part of the population sum). -/
def updateGlobalPlagueState (w : WorldState) (hs : List (String × HealthStatus)) :
    WorldState :=
  let totalPopulation :=
    diseaseStateCount hs .susceptible + diseaseStateCount hs .exposed +
      diseaseStateCount hs .infected + diseaseStateCount hs .recovered
  let infectionRate :=
    (diseaseStateCount hs .exposed + diseaseStateCount hs .infected) / max 1 totalPopulation
  { w with globalState := { w.globalState with plagueActive := decide (1 / 10 < infectionRate) } }

/-- `Disease.update()`: per-character health updates, then `spreadDisease`
with its new infections applied through `infect`, then the global plague
flag.  `rd`/`md`/`td` are the random-draw oracles. -/
def diseaseUpdate (w : WorldState) (ds : DiseaseSystem)
    (rd md : String → ℚ) (td : String → String → ℚ) : WorldState × DiseaseSystem :=
  let currentTurn := w.time
  let hs1 :=
    mapValsK
      (fun k st => updateIndividualHealth ds.diseases st currentTurn (rd k) (md k))
      ds.healthStatuses
  let spread := spreadDisease w hs1 ds.diseases td
  let w1 := { w with relations := spread.1 }
  let ds1 := spread.2.foldl
    (fun acc inf => infectSystem acc currentTurn inf.1 inf.2)
    { ds with healthStatuses := hs1 }
  (updateGlobalPlagueState w1 ds1.healthStatuses, ds1)

/-- One observable step of a single character's health record: a tick of
`updateIndividualHealth` (with draws from `[0,1)`), an `infect` call, or a
`treat` call, at an arbitrary world time. -/
inductive HealthStep (diseases : List (String × DiseaseType)) :
    HealthStatus → HealthStatus → Prop
  | update (s : HealthStatus) (turn : ℤ) (rd md : ℚ)
      (hrd : 0 ≤ rd ∧ rd < 1) (hmd : 0 ≤ md ∧ md < 1) :
      HealthStep diseases s (updateIndividualHealth diseases s turn rd md)
  | infectCall (s : HealthStatus) (dId : String) (turn : ℤ) :
      HealthStep diseases s (infectStatus s dId turn).2
  | treatCall (s : HealthStatus) (effectiveness draw : ℚ) (turn : ℤ)
      (hd : 0 ≤ draw ∧ draw < 1) :
      HealthStep diseases s (treatStatus s effectiveness draw turn).2

/-- The state-transition pairs the disease state machine is allowed to take:
stutter, the forward chain, and the immunity-expiry loop. -/
def allowedTransition (a b : DiseaseState) : Prop :=
  a = b ∨
    (a = .susceptible ∧ b = .exposed) ∨
    (a = .exposed ∧ b = .infected) ∨
    (a = .infected ∧ b = .recovered) ∨
    (a = .infected ∧ b = .dead) ∨
    (a = .recovered ∧ b = .susceptible)

/-! ## Ecosystem (`src/simulation/Ecosystem.ts`) -/

/-- `CreatureType` enumeration. -/
inductive CreatureType
  | prey | predator | plant
  deriving DecidableEq

/-- `Species`. -/
structure Species where
  id : String
  name : String
  type : CreatureType
  population : ℚ
  growthRate : ℚ
  carryingCapacity : ℚ
  predationRate : Option ℚ
  conversionRate : Option ℚ
  mortalityRate : Option ℚ
  deriving DecidableEq

/-- `Ecosystem` (per location). -/
structure Ecosystem where
  locationId : String
  species : List (String × Species)
  resources : ℚ
  stability : ℚ
  deriving DecidableEq

/-- `clamp(value, min, max)` from `src/utils/Math.ts`. -/
def clamp (value lo hi : ℚ) : ℚ :=
  max lo (min hi value)

/-- The seasonal resource multiplier of `updateEcosystem`. -/
def resourceMultiplierOf (season : Season) : ℚ :=
  match season with
  | .spring => 12 / 10
  | .summer => 1
  | .autumn => 8 / 10
  | .winter => 5 / 10

/-- `updateLogisticGrowth(species, resourceMultiplier)`:
`growth = r·N·(1 − N/K)` and the population floored at 0. -/
def updateLogisticGrowth (resourceMultiplier : ℚ) (species : Species) : Species :=
  let N := species.population
  let r := species.growthRate * resourceMultiplier
  let K := species.carryingCapacity
  let growth := r * N * (1 - N / K)
  { species with population := max 0 (N + growth) }

/-- The species values currently of a given type, in map order (the
`Array.from(...).filter(...)` snapshots; population reads are live, so the
current list is re-read at each use). -/
def speciesOfType (s : List (String × Species)) (t : CreatureType) : List Species :=
  (s.map (fun p => p.2)).filter (fun sp => decide (sp.type = t))

/-- `updatePreyPopulation(prey, predators, plants)` for the prey stored at
`preyId`: natural growth scaled by plant-derived food availability minus
predation losses, then proportional plant consumption (`N·0.01` per plant,
floored at 0). -/
def preyStep (s : List (String × Species)) (preyId : String) :
    List (String × Species) :=
  match lookupA s preyId with
  | none => s
  | some prey =>
    let predators := speciesOfType s .predator
    let plants := speciesOfType s .plant
    let N := prey.population
    let plantBiomass := (plants.map (fun p => p.population)).sum
    let foodAvailability := min 1 (plantBiomass / 1000)
    let naturalGrowth := prey.growthRate * N * foodAvailability
    let predationLoss :=
      (predators.map (fun predator => predator.predationRate.getD 0 * N * predator.population)).sum
    let s1 := setA s preyId { prey with population := max 0 (N + naturalGrowth - predationLoss) }
    mapVals
      (fun sp =>
        if sp.type = .plant then
          { sp with population := max 0 (sp.population - N * (1 / 100)) }
        else sp)
      s1

/-- `updatePredatorPopulation(predator, preys)` for the predator stored at
`pid`: growth `Σ b·a·prey·P` minus mortality `m·P`, floored at 0 (the JS
`|| 0` / `|| 0.1` defaults on the optional rates). -/
def predatorStep (s : List (String × Species)) (pid : String) :
    List (String × Species) :=
  match lookupA s pid with
  | none => s
  | some predator =>
    let P := predator.population
    let a := predator.predationRate.getD 0
    let b := predator.conversionRate.getD 0
    let m := predator.mortalityRate.getD (1 / 10)
    let preys := speciesOfType s .prey
    let growth := (preys.map (fun prey => b * a * prey.population * P)).sum
    let death := m * P
    setA s pid { predator with population := max 0 (P + growth - death) }

/-- `updateStability(ecosystem)`: `1 − 0.5·(endangered + overpopulated)/n`,
clamped to [0,1], with `n = species.length || 1`. -/
def updateStability (eco : Ecosystem) : Ecosystem :=
  let species := eco.species.map (fun p => p.2)
  let endangered :=
    (species.filter (fun s => decide (s.population < s.carryingCapacity * (1 / 10)))).length
  let overpopulated :=
    (species.filter (fun s => decide (s.carryingCapacity * (9 / 10) < s.population))).length
  let n : ℚ := if species.length = 0 then 1 else (species.length : ℚ)
  { eco with stability := clamp (1 - ((endangered : ℚ) + (overpopulated : ℚ)) / n * (1 / 2)) 0 1 }

/-- `updateEcosystem(ecosystem)`: plants grow logistically, then every prey is
updated (consuming plants as it goes), then every predator, then stability.
The prey/predator iteration follows the key order of the species map. -/
def updateEcosystem (season : Season) (eco : Ecosystem) : Ecosystem :=
  let rm := resourceMultiplierOf season
  let s1 :=
    mapVals (fun sp => if sp.type = .plant then updateLogisticGrowth rm sp else sp)
      eco.species
  let preyIds := (s1.filter (fun p => decide (p.2.type = .prey))).map (fun p => p.1)
  let s2 := preyIds.foldl preyStep s1
  let predatorIds := (s2.filter (fun p => decide (p.2.type = .predator))).map (fun p => p.1)
  let s3 := predatorIds.foldl predatorStep s2
  updateStability { eco with species := s3 }

/-- `EcosystemSimulation.update()`: update every stored ecosystem. -/
def ecosystemUpdate (season : Season) (ecos : List (String × Ecosystem)) :
    List (String × Ecosystem) :=
  mapVals (updateEcosystem season) ecos

/-- `hunt(locationId, speciesId, quantity)`: at most 10% of the population can
be caught, attempts below one animal fail, and the catch is subtracted. -/
def hunt (ecos : List (String × Ecosystem)) (locationId speciesId : String)
    (quantity : ℚ) : List (String × Ecosystem) × Bool × ℤ :=
  match lookupA ecos locationId with
  | none => (ecos, false, 0)
  | some eco =>
    match lookupA eco.species speciesId with
    | none => (ecos, false, 0)
    | some species =>
      if species.type = .plant then (ecos, false, 0)
      else
        let available := species.population
        let caught := min quantity (available * (1 / 10))
        if caught < 1 then (ecos, false, 0)
        else
          (setA ecos locationId
            { eco with
              species := setA eco.species speciesId
                { species with population := species.population - caught } },
            true, ⌊caught⌋)

/-- One step of the ecosystem system: a tick of `update()` in some season, or
a `hunt` call. -/
inductive EcoStep : List (String × Ecosystem) → List (String × Ecosystem) → Prop
  | update (ecos : List (String × Ecosystem)) (season : Season) :
      EcoStep ecos (ecosystemUpdate season ecos)
  | huntCall (ecos : List (String × Ecosystem)) (locationId speciesId : String)
      (quantity : ℚ) :
      EcoStep ecos (hunt ecos locationId speciesId quantity).1

/-- All species populations of an ecosystem table are nonnegative. -/
def EcoNonNeg (ecos : List (String × Ecosystem)) : Prop :=
  ∀ p ∈ ecos, ∀ q ∈ p.2.species, 0 ≤ q.2.population

/-- Species-list version of `EcoNonNeg`. -/
def SpNonNeg (s : List (String × Species)) : Prop :=
  ∀ q ∈ s, 0 ≤ q.2.population

/-- The population stored for `speciesId` at `locationId`, if any. -/
def populationAt (ecos : List (String × Ecosystem)) (locationId speciesId : String) :
    Option ℚ :=
  (lookupA ecos locationId).bind (fun eco => (lookupA eco.species speciesId).map (fun s => s.population))

/-- The population stored in a species table under a key, if any. -/
def popSp (s : List (String × Species)) (k : String) : Option ℚ :=
  (lookupA s k).map (fun sp => sp.population)

/-! ## Economy (`src/simulation/Economy.ts`)

Prices use `Math.pow(ratio, 0.3)`, so this module is embedded over `ℝ` with
`Real.rpow`.  Each `randomRange(a, b)` call is an oracle argument. -/

/-- `GoodsType` enumeration. -/
inductive GoodsType
  | food | weapons | luxury | materials | medicine
  deriving DecidableEq

/-- The five goods in the iteration order used throughout the source. -/
def goodsList : List GoodsType :=
  [.food, .weapons, .luxury, .materials, .medicine]

/-- `BASE_PRICES`. -/
def BASE_PRICES : GoodsType → ℝ
  | .food => 10
  | .weapons => 50
  | .luxury => 100
  | .materials => 20
  | .medicine => 30

/-- `Market`: per-goods price/supply/demand maps (total functions, since
`createMarket` populates every goods key) plus trade volume. -/
structure Market where
  locationId : String
  prices : GoodsType → ℝ
  supply : GoodsType → ℝ
  demand : GoodsType → ℝ
  tradeVolume : ℝ

/-- Pointwise map update. -/
def funUpdate (f : GoodsType → ℝ) (g : GoodsType) (v : ℝ) : GoodsType → ℝ :=
  fun g' => if g' = g then v else f g'

/-- JS `x || d` on a present numeric map value: `d` when the value is the
falsy 0, else the value itself. -/
noncomputable def orD (x d : ℝ) : ℝ :=
  if x = 0 then d else x

/-- `clamp` over `ℝ`. -/
noncomputable def clampR (value lo hi : ℝ) : ℝ :=
  max lo (min hi value)

/-- `lerp` over `ℝ`. -/
noncomputable def lerp (a b t : ℝ) : ℝ :=
  a + (b - a) * t

/-- The `Economy` state: the market table and the inflation rate.  (The
`globalMoneySupply` constant is never read by any method and is omitted.) -/
structure EconomyState where
  markets : List (String × Market)
  inflationRate : ℝ

/-- `createMarket(location)`: prices at base, supply/demand seeded from the
location type and population scaled by `randomRange(0.8, 1.2)` draws. -/
noncomputable def createMarket (location : Location) (sDraw dDraw : GoodsType → ℝ) :
    Market :=
  let baseSupply : ℝ := if location.type = .city then 100 else 30
  let baseDemand : ℝ := (location.population : ℝ) / 100
  { locationId := location.id
    prices := fun goods => BASE_PRICES goods
    supply := fun goods => baseSupply * sDraw goods
    demand := fun goods => baseDemand * dDraw goods
    tradeVolume := 0 }

/-- `initializeMarkets()`: one market per city or village location. -/
noncomputable def initializeMarkets (w : WorldState)
    (sDraw dDraw : String → GoodsType → ℝ) : List (String × Market) :=
  (w.locations.map (fun p => p.2)).foldl
    (fun ms location =>
      if location.type = .city ∨ location.type = .village then
        setA ms location.id (createMarket location (sDraw location.id) (dDraw location.id))
      else ms)
    []

/-- The constructor state of `Economy`: initial markets, inflation rate 0. -/
noncomputable def economyInit (w : WorldState) (sDraw dDraw : String → GoodsType → ℝ) :
    EconomyState :=
  { markets := initializeMarkets w sDraw dDraw, inflationRate := 0 }

/-- The per-market body of `updatePrices()`:
`price = basePrice · (demand / max(1, supply))^0.3 · (1 + inflationRate)`,
clamped to `[0.5·base, 3·base]`; `supply`/`demand` fall back to 1 through the
JS `|| 1`. -/
noncomputable def updateMarketPrices (inflationRate : ℝ) (m : Market) : Market :=
  { m with
    prices := fun goods =>
      let basePrice := BASE_PRICES goods
      let supply := orD (m.supply goods) 1
      let demand := orD (m.demand goods) 1
      let ratio := demand / max 1 supply
      let priceMultiplier := ratio ^ ((3 : ℝ) / 10)
      let inflationMultiplier := 1 + inflationRate
      clampR (basePrice * priceMultiplier * inflationMultiplier)
        (basePrice * (1 / 2)) (basePrice * 3) }

/-- `updatePrices()` over the whole market table. -/
noncomputable def updatePricesM (inflationRate : ℝ) (markets : List (String × Market)) :
    List (String × Market) :=
  mapVals (updateMarketPrices inflationRate) markets

/-- `calculateProduction(location, goods)` with its `randomRange(0.8, 1.2)`
draw. -/
noncomputable def calculateProduction (location : Location) (goods : GoodsType)
    (draw : ℝ) : ℝ :=
  let baseProduction := (location.resources : ℝ) / 100
  let factor : ℝ :=
    match goods with
    | .food => if location.type = .village then 2 else 1 / 2
    | .weapons => if location.type = .city then 1 else 1 / 5
    | .luxury => if location.type = .city then 1 else 0
    | .materials => 1
    | .medicine => 1 / 2
  baseProduction * factor * draw

/-- `calculateDemandChange(location, goods)` with its
`randomRange(-0.5, 0.5)` draw. -/
noncomputable def calculateDemandChange (location : Location) (goods : GoodsType)
    (season : Season) (plagueActive : Bool) (draw : ℝ) : ℝ :=
  let populationFactor := (location.population : ℝ) / 10000
  let s1 : ℝ := if goods = .food then (if season = .winter then 3 / 2 else 1) else 1
  let seasonalFactor : ℝ := if goods = .medicine ∧ plagueActive then 3 else s1
  populationFactor * seasonalFactor * draw

/-- The per-goods body of `updateSupplyDemand()`: the supply write with the
production is overwritten by the consumption write at the end of the loop
body, exactly as in the source. -/
noncomputable def supplyDemandGoods (location : Location) (season : Season)
    (plagueActive : Bool) (prodDraw demDraw : GoodsType → ℝ) (m : Market)
    (goods : GoodsType) : Market :=
  let production := calculateProduction location goods (prodDraw goods)
  let currentSupply := m.supply goods
  let m1 := { m with supply := funUpdate m.supply goods (currentSupply + production) }
  let demandChange := calculateDemandChange location goods season plagueActive (demDraw goods)
  let currentDemand := m.demand goods
  let m2 := { m1 with demand := funUpdate m1.demand goods (max 0 (currentDemand + demandChange)) }
  let consumption := min currentSupply (currentDemand * (1 / 10))
  { m2 with supply := funUpdate m2.supply goods (max 0 (currentSupply - consumption)) }

/-- `updateSupplyDemand()`: per market (skipping markets whose location is
missing), fold the per-goods body over the five goods. -/
noncomputable def updateSupplyDemandM (w : WorldState)
    (prodDraw demDraw : String → GoodsType → ℝ) (markets : List (String × Market)) :
    List (String × Market) :=
  mapValsK
    (fun k m =>
      match lookupA w.locations m.locationId with
      | none => m
      | some location =>
        goodsList.foldl
          (supplyDemandGoods location w.globalState.season w.globalState.plagueActive
            (prodDraw k) (demDraw k))
          m)
    markets

/-- `calculateInflation()`: exponential smoothing toward 0.1 (depressed
economy) or 0, clamped to [-0.1, 0.5]. -/
noncomputable def calculateInflation (economyIndex : ℚ) (inflationRate : ℝ) : ℝ :=
  let target := if economyIndex < 1 then lerp inflationRate (1 / 10) (1 / 10)
    else lerp inflationRate 0 (1 / 10)
  clampR target (-(1 / 10)) (1 / 2)

/-- The per-goods transfer of `updateTradeRoutes()`.  The source holds object
references to both markets; the aliasing is modelled by refetching each
market from the current table at every read/write. -/
noncomputable def tradeGoodsStep (markets : List (String × Market))
    (locId connectedId : String) (goods : GoodsType) : List (String × Market) :=
  match lookupA markets locId with
  | none => markets
  | some market =>
    match lookupA markets connectedId with
    | none => markets
    | some connectedMarket =>
      let price1 := market.prices goods
      let price2 := connectedMarket.prices goods
      if price2 * (13 / 10) < price1 then
        let transfer : ℝ := 5
        let supply2 := connectedMarket.supply goods
        if transfer < supply2 then
          let markets1 := setA markets connectedId
            { connectedMarket with
              supply := funUpdate connectedMarket.supply goods (supply2 - transfer) }
          match lookupA markets1 locId with
          | none => markets1
          | some market1 =>
            setA markets1 locId
              { market1 with
                supply := funUpdate market1.supply goods (market1.supply goods + transfer)
                tradeVolume := market1.tradeVolume + transfer }
        else markets
      else markets

/-- `updateTradeRoutes()`: for every location with a market, for every
connected market, shift 5 units of any goods whose price ratio exceeds 1.3. -/
noncomputable def updateTradeRoutes (w : WorldState) (markets : List (String × Market)) :
    List (String × Market) :=
  (w.locations.map (fun p => p.2)).foldl
    (fun ms location =>
      location.connectedTo.foldl
        (fun ms2 connectedId =>
          goodsList.foldl (fun ms3 goods => tradeGoodsStep ms3 location.id connectedId goods)
            ms2)
        ms)
    markets

/-- `Economy.update()`: prices, then supply/demand, then inflation, then
trade routes. -/
noncomputable def economyUpdate (w : WorldState)
    (prodDraw demDraw : String → GoodsType → ℝ) (st : EconomyState) : EconomyState :=
  let m1 := updatePricesM st.inflationRate st.markets
  let m2 := updateSupplyDemandM w prodDraw demDraw m1
  let infl := calculateInflation w.globalState.economyIndex st.inflationRate
  let m3 := updateTradeRoutes w m2
  { markets := m3, inflationRate := infl }

/-- One `Economy.update()` tick under arbitrary world inputs and draws. -/
inductive EconStep : EconomyState → EconomyState → Prop
  | update (st : EconomyState) (w : WorldState)
      (prodDraw demDraw : String → GoodsType → ℝ) :
      EconStep st (economyUpdate w prodDraw demDraw st)

/-- Every stored price lies in `[0.5·base, 3·base]`. -/
def PriceInv (markets : List (String × Market)) : Prop :=
  ∀ p ∈ markets, ∀ goods,
    BASE_PRICES goods * (1 / 2) ≤ p.2.prices goods ∧
      p.2.prices goods ≤ BASE_PRICES goods * 3

/-! ## Concrete fixtures used by witnesses and counterexamples -/

/-- Test fixture: a neutral personality. -/
def fixturePersonality : Personality :=
  { ambition := 1 / 2, loyalty := 1 / 2, morality := 1 / 2, courage := 1 / 2, cunning := 1 / 2 }

/-- Test fixture: a mid-range emotion record. -/
def fixtureEmotion : Emotion :=
  { trust := 1 / 2, fear := 1 / 2, anger := 1 / 2, joy := 1 / 2, despair := 1 / 2 }

/-- Test fixture: a plain character. -/
def fixtureCharacter (id loc : String) : Character :=
  { id := id, name := id, title := none, personality := fixturePersonality
    emotion := fixtureEmotion, location := loc, resources := 0, power := 0
    memory := [], beliefs := [], isPlayer := false }

/-- Test fixture: the constructor-time global state. -/
def fixtureGlobal : GlobalState :=
  { warActive := false, economyIndex := 1, plagueActive := false
    season := .spring, dayOfYear := 1 }

/-- Test fixture: a world from a character table and a relation graph. -/
def fixtureWorld (cs : List (String × Character)) (g : RelationGraph) : WorldState :=
  { time := 0, characters := cs, locations := [], relations := g
    history := [], globalState := fixtureGlobal }

/-- A two-node graph with one edge in each direction: `a → b` with trust
`tab` (inserted first) and `b → a` with trust `tba`. -/
def pairGraph (tab tba : ℚ) : RelationGraph :=
  [("a", [("b", { DEFAULT_RELATION with trust := tab })]),
   ("b", [("a", { DEFAULT_RELATION with trust := tba })])]

/-- Test fixture: a disease with certain transmission on full contact and no
recovery or mortality. -/
def fixtureDisease : DiseaseType :=
  { id := "d", name := "d", transmissionRate := 1, recoveryRate := 0, mortalityRate := 0
    incubationPeriod := 1, immunityDuration := 0 }

/-- Test fixture: an infected health status for the named character. -/
def fixtureInfected (id : String) : HealthStatus :=
  { characterId := id, state := .infected, diseaseId := some "d"
    infectedTurn := 0, exposedTurn := 0, recoveredTurn := 0 }

/-- Test fixture: a susceptible health status for the named character. -/
def fixtureSusceptible (id : String) : HealthStatus :=
  { characterId := id, state := .susceptible, diseaseId := none
    infectedTurn := 0, exposedTurn := 0, recoveredTurn := 0 }

/-- Test fixture: the disease system with one infected and one susceptible
character. -/
def fixtureDiseaseSystem : DiseaseSystem :=
  { healthStatuses := [("a", fixtureInfected "a"), ("b", fixtureSusceptible "b")]
    diseases := [("d", fixtureDisease)]
    activeOutbreaks := [] }

/-- Test fixture: a city location. -/
def fixtureCity : Location :=
  { id := "c", name := "c", type := .city, resources := 100, population := 1000
    stability := 1, connectedTo := [], owner := none, dangerLevel := none
    description := none }

/-- Test fixture: a world holding one city location. -/
def fixtureEconWorld : WorldState :=
  { time := 0, characters := [], locations := [("c", fixtureCity)], relations := []
    history := [], globalState := fixtureGlobal }

/-- Test fixture: a plant species with population 0. -/
def fixtureSpecies : Species :=
  { id := "grass", name := "grass", type := .plant, population := 0, growthRate := 1
    carryingCapacity := 2000, predationRate := none, conversionRate := none
    mortalityRate := none }

/-- Test fixture: a one-species ecosystem table. -/
def fixtureEcosystems : List (String × Ecosystem) :=
  [("L", { locationId := "L", species := [("grass", fixtureSpecies)], resources := 0
           stability := 1 })]

/-! ## Association-list lemmas -/

theorem lookupA_setA_self {β : Type} (l : List (String × β)) (k : String) (v : β) :
    lookupA (setA l k v) k = some v := by
  induction l with
  | nil => simp [setA, lookupA]
  | cons p rest ih =>
    obtain ⟨k', v'⟩ := p
    by_cases h : k' = k
    · simp [setA, h, lookupA]
    · simp [setA, h, lookupA, ih]

theorem lookupA_setA_ne {β : Type} (l : List (String × β)) (k k' : String) (v : β)
    (h : k' ≠ k) : lookupA (setA l k v) k' = lookupA l k' := by
  have hne : ¬k = k' := fun hh => h hh.symm
  induction l with
  | nil => simp [setA, lookupA, hne]
  | cons p rest ih =>
    obtain ⟨k₀, v₀⟩ := p
    by_cases hk : k₀ = k
    · subst hk
      simp [setA, lookupA, hne]
    · simp only [setA, hk, if_false, lookupA]
      by_cases hk' : k₀ = k'
      · simp [hk']
      · simp [hk', ih]

theorem mem_setA {β : Type} (l : List (String × β)) (k : String) (v : β)
    (x : String × β) (hx : x ∈ setA l k v) : x = (k, v) ∨ x ∈ l := by
  induction l with
  | nil => simpa [setA] using hx
  | cons p rest ih =>
    obtain ⟨k₀, v₀⟩ := p
    by_cases hk : k₀ = k
    · simp only [setA, hk, if_true] at hx
      rcases List.mem_cons.mp hx with h | h
      · exact Or.inl h
      · exact Or.inr (List.mem_cons_of_mem _ h)
    · simp only [setA, hk, if_false] at hx
      rcases List.mem_cons.mp hx with h | h
      · exact Or.inr (h ▸ List.mem_cons_self _ _)
      · rcases ih h with h' | h'
        · exact Or.inl h'
        · exact Or.inr (List.mem_cons_of_mem _ h')

theorem lookupA_mem {β : Type} (l : List (String × β)) (k : String) (v : β)
    (h : lookupA l k = some v) : (k, v) ∈ l := by
  induction l with
  | nil => simp [lookupA] at h
  | cons p rest ih =>
    obtain ⟨k₀, v₀⟩ := p
    by_cases hk : k₀ = k
    · subst hk
      simp only [lookupA, if_true] at h
      exact (Option.some_inj.mp h) ▸ List.mem_cons_self _ _
    · simp only [lookupA, hk, if_false] at h
      exact List.mem_cons_of_mem _ (ih h)

theorem lookupA_map {β γ : Type} (l : List (String × β)) (f : β → γ) (k : String) :
    lookupA (l.map (fun p => (p.1, f p.2))) k = (lookupA l k).map f := by
  induction l with
  | nil => simp [lookupA]
  | cons p rest ih =>
    obtain ⟨k₀, v₀⟩ := p
    by_cases hk : k₀ = k
    · simp [lookupA, hk]
    · simp [lookupA, hk, ih]

theorem lookupA_append {β : Type} (l₁ l₂ : List (String × β)) (k : String) :
    lookupA (l₁ ++ l₂) k = ((lookupA l₁ k).orElse fun _ => lookupA l₂ k) := by
  induction l₁ with
  | nil => simp [lookupA]
  | cons p rest ih =>
    obtain ⟨k₀, v₀⟩ := p
    by_cases hk : k₀ = k
    · simp [lookupA, hk]
    · simp [lookupA, hk, ih]

theorem setA_of_lookup_none {β : Type} (l : List (String × β)) (k : String) (v : β)
    (h : lookupA l k = none) : setA l k v = l ++ [(k, v)] := by
  induction l with
  | nil => simp [setA]
  | cons p rest ih =>
    obtain ⟨k₀, v₀⟩ := p
    by_cases hk : k₀ = k
    · simp [lookupA, hk] at h
    · simp only [lookupA, hk, if_false] at h
      simp [setA, hk, ih h]

theorem foldl_preserve {α β : Type} (P : α → Prop) (f : α → β → α)
    (h : ∀ a x, P a → P (f a x)) : ∀ (l : List β) (a : α), P a → P (l.foldl f a) := by
  intro l
  induction l with
  | nil => intro a ha; simpa using ha
  | cons x xs ih => intro a ha; exact ih (f a x) (h a x ha)

theorem lookupA_mapVals {β γ : Type} (f : β → γ) (l : List (String × β)) (k : String) :
    lookupA (mapVals f l) k = (lookupA l k).map f := by
  induction l with
  | nil => simp [mapVals, lookupA]
  | cons p rest ih =>
    obtain ⟨k₀, v₀⟩ := p
    by_cases hk : k₀ = k
    · simp [mapVals, lookupA, hk]
    · simpa [mapVals, lookupA, hk] using ih

theorem mem_mapVals {β γ : Type} (f : β → γ) (l : List (String × β)) (q : String × γ)
    (hq : q ∈ mapVals f l) : ∃ p ∈ l, q = (p.1, f p.2) := by
  obtain ⟨p, hp, hq'⟩ := List.mem_map.mp hq
  exact ⟨p, hp, hq'.symm⟩

theorem lookupA_mapValsK {β γ : Type} (f : String → β → γ) (l : List (String × β))
    (k : String) : lookupA (mapValsK f l) k = (lookupA l k).map (f k) := by
  induction l with
  | nil => simp [mapValsK, lookupA]
  | cons p rest ih =>
    obtain ⟨k₀, v₀⟩ := p
    by_cases hk : k₀ = k
    · subst hk
      simp [mapValsK, lookupA]
    · simpa [mapValsK, lookupA, hk] using ih

/-! ## Relation-graph write lemmas -/

theorem readRelOpt_setRel (g : RelationGraph) (f t : String) (r : Relation) :
    readRelOpt (setRel g f t r) f t = some r := by
  unfold setRel readRelOpt
  cases h : lookupA g f with
  | none => simp [lookupA_setA_self, lookupA]
  | some es => simp [lookupA_setA_self]

theorem clampRelation_bounds (r : Relation) :
    (-1 ≤ (clampRelation r).trust ∧ (clampRelation r).trust ≤ 1) ∧
      (0 ≤ (clampRelation r).fear ∧ (clampRelation r).fear ≤ 1) ∧
      (-1 ≤ (clampRelation r).respect ∧ (clampRelation r).respect ≤ 1) := by
  unfold clampRelation
  refine ⟨⟨le_max_left _ _, max_le (by norm_num) (min_le_left _ _)⟩,
    ⟨le_max_left _ _, max_le (by norm_num) (min_le_left _ _)⟩,
    ⟨le_max_left _ _, max_le (by norm_num) (min_le_left _ _)⟩⟩

/-- C2: every write through `updateRelation` or `modifyRelation` leaves the
stored relation with trust in [-1,1], fear in [0,1] and respect in [-1,1],
whatever the magnitude or sign of the supplied values; in particular
`modifyRelation(a,b,{trust:2})` followed by `modifyRelation(a,b,{trust:-5})`
stores trust -1. -/
theorem relation_writes_clamped :
    (∀ (g : RelationGraph) (f t : String) (u : RelationPatch) (r : Relation),
        readRelOpt (updateRelation g f t u) f t = some r →
        (-1 ≤ r.trust ∧ r.trust ≤ 1) ∧ (0 ≤ r.fear ∧ r.fear ≤ 1) ∧
          (-1 ≤ r.respect ∧ r.respect ≤ 1)) ∧
    (∀ (g : RelationGraph) (f t : String) (d : RelationPatch) (r : Relation),
        readRelOpt (modifyRelation g f t d) f t = some r →
        (-1 ≤ r.trust ∧ r.trust ≤ 1) ∧ (0 ≤ r.fear ∧ r.fear ≤ 1) ∧
          (-1 ≤ r.respect ∧ r.respect ≤ 1)) ∧
    (getRelation
        (modifyRelation (modifyRelation [] "a" "b" { trust := some 2 }) "a" "b"
          { trust := some (-5) })
        "a" "b").2.trust = -1 := by
  refine ⟨?_, ?_, ?_⟩
  · intro g f t u r hr
    rw [updateRelation, readRelOpt_setRel] at hr
    exact (Option.some_inj.mp hr) ▸ clampRelation_bounds _
  · intro g f t d r hr
    rw [modifyRelation, readRelOpt_setRel] at hr
    exact (Option.some_inj.mp hr) ▸ clampRelation_bounds _
  · norm_num [modifyRelation, getRelation, setRel, setA, lookupA, readRelOpt,
      DEFAULT_RELATION, clampRelation]

/-- Witness for C2 at a concrete over-magnitude write. -/
theorem relation_writes_clamped_witness :
    (-1 ≤ (1 : ℚ) ∧ (1 : ℚ) ≤ 1) ∧ ((0 : ℚ) ≤ 0 ∧ (0 : ℚ) ≤ 1) ∧
      (-1 ≤ (0 : ℚ) ∧ (0 : ℚ) ≤ 1) :=
  relation_writes_clamped.1 [] "a" "b" { trust := some 5 }
    { trust := 1, fear := 0, respect := 0, debt := 0, secretShared := false, history := [] }
    (by decide)

/-! ## C3: emotion decay -/

theorem lookupA_applyEmotionDecay (w : WorldState) (k : String) :
    lookupA (applyEmotionDecay w).characters k =
      (lookupA w.characters k).map (fun c => { c with emotion := decayEmotion c.emotion }) := by
  simp only [applyEmotionDecay]
  exact lookupA_mapVals _ w.characters k

/-- C3: after one `advanceTime()`, every character's anger/fear/joy/despair
equals its pre-call value times 0.95, and the trust emotion is unchanged. -/
theorem advanceTime_emotion_decay (w : WorldState) (id : String) (c : Character)
    (h : lookupA w.characters id = some c) :
    ∃ c', lookupA (advanceTime w).characters id = some c' ∧
      c'.emotion.anger = c.emotion.anger * (95 / 100) ∧
      c'.emotion.fear = c.emotion.fear * (95 / 100) ∧
      c'.emotion.joy = c.emotion.joy * (95 / 100) ∧
      c'.emotion.despair = c.emotion.despair * (95 / 100) ∧
      c'.emotion.trust = c.emotion.trust := by
  refine ⟨{ c with emotion := decayEmotion c.emotion }, ?_, by simp [decayEmotion, DECAY_RATE],
    by simp [decayEmotion, DECAY_RATE], by simp [decayEmotion, DECAY_RATE],
    by simp [decayEmotion, DECAY_RATE], by simp [decayEmotion]⟩
  simp only [advanceTime]
  rw [lookupA_applyEmotionDecay]
  simp [h]

/-- Witness for C3 on a concrete one-character world. -/
theorem advanceTime_emotion_decay_witness :
    ∃ c', lookupA (advanceTime (fixtureWorld [("a", fixtureCharacter "a" "town")] [])).characters
        "a" = some c' ∧
      c'.emotion.anger = (fixtureCharacter "a" "town").emotion.anger * (95 / 100) ∧
      c'.emotion.fear = (fixtureCharacter "a" "town").emotion.fear * (95 / 100) ∧
      c'.emotion.joy = (fixtureCharacter "a" "town").emotion.joy * (95 / 100) ∧
      c'.emotion.despair = (fixtureCharacter "a" "town").emotion.despair * (95 / 100) ∧
      c'.emotion.trust = (fixtureCharacter "a" "town").emotion.trust :=
  advanceTime_emotion_decay (fixtureWorld [("a", fixtureCharacter "a" "town")] []) "a"
    (fixtureCharacter "a" "town") rfl

/-! ## C4: unrecognized condition types -/

/-- C4 counterexample: a condition of the unrecognized kind `custom` makes
`checkCondition` return `true` (the source's `default` branch), not `false`
as claimed. -/
theorem checkCondition_default_counterexample :
    checkCondition (fixtureWorld [] []) (fixtureCharacter "a" "town")
      { type := .custom, target := none, operator := .gt, value := .num 0, field := none }
      none = true := rfl

/-- C4 (amended): for every condition whose type is not one of the recognized
kinds (stat, relation, resource, location), `checkCondition` returns `true` —
the condition is treated as satisfied, so it never invalidates an action —
and, being a total function, it never throws. -/
theorem checkCondition_default_true (w : WorldState) (character : Character)
    (condition : Condition) (targetId : Option String)
    (h : condition.type = .event ∨ condition.type = .custom) :
    checkCondition w character condition targetId = true := by
  rcases h with h | h <;> simp [checkCondition, h]

/-- Witness for the amended C4 at a concrete `event`-typed condition. -/
theorem checkCondition_default_true_witness :
    checkCondition (fixtureWorld [] []) (fixtureCharacter "a" "town")
      { type := .event, target := none, operator := .lt, value := .num 3, field := some "power" }
      (some "b") = true :=
  checkCondition_default_true (fixtureWorld [] []) (fixtureCharacter "a" "town")
    { type := .event, target := none, operator := .lt, value := .num 3, field := some "power" }
    (some "b") (Or.inl rfl)

/-! ## C6: effects on absent characters -/

/-- C6 counterexample: a relation-kind effect whose composite target names
two ids absent from the character table still mutates the world (the relation
graph gains the lazily created edge), so `applyEffect` is not a no-op for
every effect kind. -/
theorem applyEffect_missing_counterexample :
    applyEffect (fixtureWorld [] [])
        { type := .relation, target := "x:y", field := "trust", change := 2,
          isRelative := false } ≠
      fixtureWorld [] [] := by
  decide

/-- C6 (amended): an emotion, resource or stat effect whose target character
is absent from the character table leaves the world state (character table,
relation graph, event history, global state) unchanged and does not throw;
relation-kind effects are exempt, since the relation graph is keyed
independently of the character table and the composite target lazily creates
its edge. -/
theorem applyEffect_missing_target (w : WorldState) (effect : Effect)
    (hkind : effect.type = .emotion ∨ effect.type = .resource ∨ effect.type = .stat)
    (h : lookupA w.characters effect.target = none) :
    applyEffect w effect = w := by
  rcases hkind with hk | hk | hk <;>
    simp [applyEffect, hk, applyEmotionEffect, applyResourceEffect, applyStatEffect, h]

/-- Witness for the amended C6 at a concrete absent-target emotion effect. -/
theorem applyEffect_missing_target_witness :
    applyEffect (fixtureWorld [] [])
        { type := .emotion, target := "ghost", field := "joy", change := 1,
          isRelative := true } =
      fixtureWorld [] [] :=
  applyEffect_missing_target (fixtureWorld [] [])
    { type := .emotion, target := "ghost", field := "joy", change := 1, isRelative := true }
    (Or.inl rfl) rfl

/-! ## C10: `getRelation` is a mutating read -/

theorem edgeCountG_cons (p : String × List (String × Relation)) (rest : RelationGraph) :
    edgeCountG (p :: rest) = p.2.length + edgeCountG rest := by
  simp [edgeCountG]

theorem totalTrustG_cons (p : String × List (String × Relation)) (rest : RelationGraph) :
    totalTrustG (p :: rest) = (p.2.map (fun e => e.2.trust)).sum + totalTrustG rest := by
  simp [totalTrustG]

theorem totalFearG_cons (p : String × List (String × Relation)) (rest : RelationGraph) :
    totalFearG (p :: rest) = (p.2.map (fun e => e.2.fear)).sum + totalFearG rest := by
  simp [totalFearG]

theorem edgeCountG_setA_append (g : RelationGraph) (a : String)
    (es : List (String × Relation)) (x : String × Relation) (h : lookupA g a = some es) :
    edgeCountG (setA g a (es ++ [x])) = edgeCountG g + 1 := by
  induction g with
  | nil => simp [lookupA] at h
  | cons p rest ih =>
    obtain ⟨k0, v0⟩ := p
    by_cases hk : k0 = a
    · simp only [lookupA, hk, if_true, Option.some_inj] at h
      subst h
      simp only [setA, hk, if_true, edgeCountG_cons]
      simp
      omega
    · simp only [lookupA, hk, if_false] at h
      simp only [setA, hk, if_false, edgeCountG_cons, ih h]
      omega

theorem totalTrustG_setA_append (g : RelationGraph) (a : String)
    (es : List (String × Relation)) (b : String) (r : Relation)
    (h : lookupA g a = some es) :
    totalTrustG (setA g a (es ++ [(b, r)])) = totalTrustG g + r.trust := by
  induction g with
  | nil => simp [lookupA] at h
  | cons p rest ih =>
    obtain ⟨k0, v0⟩ := p
    by_cases hk : k0 = a
    · simp only [lookupA, hk, if_true, Option.some_inj] at h
      subst h
      simp only [setA, hk, if_true, totalTrustG_cons]
      simp
      ring
    · simp only [lookupA, hk, if_false] at h
      simp only [setA, hk, if_false, totalTrustG_cons, ih h]
      ring

theorem totalFearG_setA_append (g : RelationGraph) (a : String)
    (es : List (String × Relation)) (b : String) (r : Relation)
    (h : lookupA g a = some es) :
    totalFearG (setA g a (es ++ [(b, r)])) = totalFearG g + r.fear := by
  induction g with
  | nil => simp [lookupA] at h
  | cons p rest ih =>
    obtain ⟨k0, v0⟩ := p
    by_cases hk : k0 = a
    · simp only [lookupA, hk, if_true, Option.some_inj] at h
      subst h
      simp only [setA, hk, if_true, totalFearG_cons]
      simp
      ring
    · simp only [lookupA, hk, if_false] at h
      simp only [setA, hk, if_false, totalFearG_cons, ih h]
      ring

theorem edgeCountG_append_single (g : RelationGraph) (a b : String) (r : Relation) :
    edgeCountG (g ++ [(a, [(b, r)])]) = edgeCountG g + 1 := by
  simp [edgeCountG]

theorem totalTrustG_append_single (g : RelationGraph) (a b : String) (r : Relation) :
    totalTrustG (g ++ [(a, [(b, r)])]) = totalTrustG g + r.trust := by
  simp [totalTrustG]

theorem totalFearG_append_single (g : RelationGraph) (a b : String) (r : Relation) :
    totalFearG (g ++ [(a, [(b, r)])]) = totalFearG g + r.fear := by
  simp [totalFearG]

/-- C10: `getRelation` on a missing edge is not a side-effect-free read: it
stores a default edge (trust 0, fear 0, respect 0, debt 0, no secret, empty
history), after which `getStats` reports an edge count one larger and average
trust/fear re-weighted over the extra zero edge; and on the concrete empty
graph the centralities of both endpoints increase. -/
theorem getRelation_mutating_read :
    (∀ (g : RelationGraph) (a b : String), readRelOpt g a b = none →
      (getRelation g a b).2 = DEFAULT_RELATION ∧
        (getStats (getRelation g a b).1).edgeCount = (getStats g).edgeCount + 1 ∧
        (getStats (getRelation g a b).1).avgTrust =
          totalTrustG g / ((getStats g).edgeCount + 1 : ℚ) ∧
        (getStats (getRelation g a b).1).avgFear =
          totalFearG g / ((getStats g).edgeCount + 1 : ℚ)) ∧
    DEFAULT_RELATION =
      { trust := 0, fear := 0, respect := 0, debt := 0, secretShared := false, history := [] } ∧
    getCentrality ([] : RelationGraph) "a" < getCentrality (getRelation [] "a" "b").1 "a" ∧
    getCentrality ([] : RelationGraph) "b" < getCentrality (getRelation [] "a" "b").1 "b" := by
  refine ⟨?_, rfl, by decide, by decide⟩
  intro g a b h
  rw [readRelOpt] at h
  cases hga : lookupA g a with
  | none =>
    have hg : getRelation g a b = (setA g a [(b, DEFAULT_RELATION)], DEFAULT_RELATION) := by
      rw [getRelation, hga]
    rw [hg, setA_of_lookup_none g a _ hga]
    refine ⟨rfl, ?_, ?_, ?_⟩
    · show edgeCountG (g ++ [(a, [(b, DEFAULT_RELATION)])]) = edgeCountG g + 1
      exact edgeCountG_append_single g a b _
    · show (if 0 < edgeCountG (g ++ [(a, [(b, DEFAULT_RELATION)])]) then
          totalTrustG (g ++ [(a, [(b, DEFAULT_RELATION)])]) /
            (edgeCountG (g ++ [(a, [(b, DEFAULT_RELATION)])]) : ℚ)
        else 0) = totalTrustG g / ((edgeCountG g : ℚ) + 1)
      rw [edgeCountG_append_single, totalTrustG_append_single, if_pos (Nat.succ_pos _)]
      simp only [DEFAULT_RELATION, add_zero]
      push_cast
      ring
    · show (if 0 < edgeCountG (g ++ [(a, [(b, DEFAULT_RELATION)])]) then
          totalFearG (g ++ [(a, [(b, DEFAULT_RELATION)])]) /
            (edgeCountG (g ++ [(a, [(b, DEFAULT_RELATION)])]) : ℚ)
        else 0) = totalFearG g / ((edgeCountG g : ℚ) + 1)
      rw [edgeCountG_append_single, totalFearG_append_single, if_pos (Nat.succ_pos _)]
      simp only [DEFAULT_RELATION, add_zero]
      push_cast
      ring
  | some es =>
    rw [hga] at h
    simp at h
    have hg : getRelation g a b = (setA g a (es ++ [(b, DEFAULT_RELATION)]), DEFAULT_RELATION) := by
      rw [getRelation, hga]
      simp [h]
    rw [hg]
    refine ⟨rfl, ?_, ?_, ?_⟩
    · show edgeCountG (setA g a (es ++ [(b, DEFAULT_RELATION)])) = edgeCountG g + 1
      exact edgeCountG_setA_append g a es _ hga
    · show (if 0 < edgeCountG (setA g a (es ++ [(b, DEFAULT_RELATION)])) then
          totalTrustG (setA g a (es ++ [(b, DEFAULT_RELATION)])) /
            (edgeCountG (setA g a (es ++ [(b, DEFAULT_RELATION)])) : ℚ)
        else 0) = totalTrustG g / ((edgeCountG g : ℚ) + 1)
      rw [edgeCountG_setA_append g a es _ hga, totalTrustG_setA_append g a es b _ hga,
        if_pos (Nat.succ_pos _)]
      simp only [DEFAULT_RELATION, add_zero]
      push_cast
      ring
    · show (if 0 < edgeCountG (setA g a (es ++ [(b, DEFAULT_RELATION)])) then
          totalFearG (setA g a (es ++ [(b, DEFAULT_RELATION)])) /
            (edgeCountG (setA g a (es ++ [(b, DEFAULT_RELATION)])) : ℚ)
        else 0) = totalFearG g / ((edgeCountG g : ℚ) + 1)
      rw [edgeCountG_setA_append g a es _ hga, totalFearG_setA_append g a es b _ hga,
        if_pos (Nat.succ_pos _)]
      simp only [DEFAULT_RELATION, add_zero]
      push_cast
      ring

/-- Witness for C10 on a concrete graph with one existing edge. -/
theorem getRelation_mutating_read_witness :
    (getRelation (pairGraph 1 1) "a" "c").2 = DEFAULT_RELATION ∧
      (getStats (getRelation (pairGraph 1 1) "a" "c").1).edgeCount =
        (getStats (pairGraph 1 1)).edgeCount + 1 ∧
      (getStats (getRelation (pairGraph 1 1) "a" "c").1).avgTrust =
        totalTrustG (pairGraph 1 1) / ((getStats (pairGraph 1 1)).edgeCount + 1 : ℚ) ∧
      (getStats (getRelation (pairGraph 1 1) "a" "c").1).avgFear =
        totalFearG (pairGraph 1 1) / ((getStats (pairGraph 1 1)).edgeCount + 1 : ℚ) :=
  getRelation_mutating_read.1 (pairGraph 1 1) "a" "c" (by decide)

/-! ## C9: disease state machine -/

theorem star_fixed {α : Type} (r : α → α → Prop) (s : α) (hfix : ∀ y, r s y → y = s) :
    ∀ y, Star r s y → y = s := by
  intro y h
  induction h with
  | refl => rfl
  | tail _ hbc ih =>
    rw [ih] at hbc
    exact hfix _ hbc

theorem healthStep_allowed {diseases : List (String × DiseaseType)} {s s' : HealthStatus}
    (h : HealthStep diseases s s') : allowedTransition s.state s'.state := by
  cases h with
  | update turn rd md hrd hmd =>
    unfold updateIndividualHealth
    cases hd : s.diseaseId with
    | none => simp [allowedTransition]
    | some dId =>
      cases hl : lookupA diseases dId with
      | none => simp [allowedTransition, hl]
      | some disease =>
        cases hst : s.state <;> simp only [hl, hst] <;>
          first
          | (split_ifs <;> simp [allowedTransition, hst])
          | simp [allowedTransition, hst]
  | infectCall dId turn =>
    unfold infectStatus
    split_ifs with hsusc <;> simp [allowedTransition, hsusc]
  | treatCall effectiveness draw turn hd =>
    unfold treatStatus
    split_ifs with hinf hroll <;> simp [allowedTransition, hinf]

theorem healthStep_dead {diseases : List (String × DiseaseType)} {s s' : HealthStatus}
    (h : HealthStep diseases s s') (hd : s.state = .dead) : s' = s := by
  cases h with
  | update turn rd md hrd hmd =>
    unfold updateIndividualHealth
    cases hdid : s.diseaseId with
    | none => rfl
    | some dId =>
      cases hl : lookupA diseases dId with
      | none => simp [hl]
      | some disease => simp [hl, hd]
  | infectCall dId turn =>
    unfold infectStatus
    rw [hd]
    simp
  | treatCall effectiveness draw turn hdr =>
    unfold treatStatus
    rw [hd]
    simp

theorem healthStep_recovered_immune0 {diseases : List (String × DiseaseType)}
    {s s' : HealthStatus} (dId : String) (disease : DiseaseType)
    (hst : s.state = .recovered) (hid : s.diseaseId = some dId)
    (hl : lookupA diseases dId = some disease) (him : disease.immunityDuration = 0)
    (h : HealthStep diseases s s') : s' = s := by
  cases h with
  | update turn rd md hrd hmd =>
    simp [updateIndividualHealth, hid, hl, hst, him]
  | infectCall dId' turn =>
    unfold infectStatus
    rw [hst]
    simp
  | treatCall effectiveness draw turn hdr =>
    unfold treatStatus
    rw [hst]
    simp

/-- C9: per-character health transitions move only along
susceptible → exposed → infected → (recovered | dead) with dead absorbing;
the only backward transition is recovered → susceptible, and an update tick
takes it exactly when the disease's `immunityDuration` is positive and at
least that many ticks elapsed since recovery; a character recovered from a
disease with `immunityDuration = 0` never returns to susceptible under any
sequence of update/infect/treat calls. -/
theorem disease_state_machine (diseases : List (String × DiseaseType)) :
    (∀ s s', HealthStep diseases s s' → allowedTransition s.state s'.state) ∧
    (∀ s s', Star (HealthStep diseases) s s' → s.state = .dead → s'.state = .dead) ∧
    (∀ (s : HealthStatus) (turn : ℤ) (rd md : ℚ) (dId : String) (disease : DiseaseType),
        s.state = .recovered → s.diseaseId = some dId → lookupA diseases dId = some disease →
        ((updateIndividualHealth diseases s turn rd md).state = .susceptible ↔
          0 < disease.immunityDuration ∧
            disease.immunityDuration ≤ turn - s.recoveredTurn)) ∧
    (∀ (s s' : HealthStatus) (dId : String) (disease : DiseaseType),
        Star (HealthStep diseases) s s' → s.state = .recovered →
        s.diseaseId = some dId → lookupA diseases dId = some disease →
        disease.immunityDuration = 0 → s'.state ≠ .susceptible) := by
  refine ⟨fun s s' h => healthStep_allowed h, ?_, ?_, ?_⟩
  · intro s s' hstar hdead
    have : s' = s :=
      star_fixed (HealthStep diseases) s (fun y hy => healthStep_dead hy hdead) s' hstar
    rw [this, hdead]
  · intro s turn rd md dId disease hst hid hl
    simp only [updateIndividualHealth, hid, hl, hst]
    split_ifs with h1 h2
    · simp [h1, h2]
    · simp [h1, h2, hst]
    · simp only [hst]
      constructor
      · intro hc
        exact absurd hc (by simp)
      · intro hc
        exact absurd hc.1 h1
  · intro s s' dId disease hstar hst hid hl him
    have : s' = s :=
      star_fixed (HealthStep diseases) s
        (fun y hy => healthStep_recovered_immune0 dId disease hst hid hl him hy) s' hstar
    rw [this, hst]
    simp

/-- Witness for C9 at a concrete update step of an infected status. -/
theorem disease_state_machine_witness :
    allowedTransition (fixtureInfected "a").state
      (updateIndividualHealth [("d", fixtureDisease)] (fixtureInfected "a") 0 (1 / 2)
        (1 / 2)).state :=
  (disease_state_machine [("d", fixtureDisease)]).1 _ _
    (HealthStep.update (fixtureInfected "a") 0 (1 / 2) (1 / 2)
      ⟨by norm_num, by norm_num⟩ ⟨by norm_num, by norm_num⟩)

/-! ## C8: ecosystem population invariants -/

/-- The plant-growth pass of `updateEcosystem` as a value map. -/
theorem preyStep_eq_some (s : List (String × Species)) (preyId : String) (prey : Species)
    (hlp : lookupA s preyId = some prey) :
    preyStep s preyId =
      mapVals
        (fun sp =>
          if sp.type = .plant then
            { sp with population := max 0 (sp.population - prey.population * (1 / 100)) }
          else sp)
        (setA s preyId
          { prey with
            population := max 0 (prey.population +
              prey.growthRate * prey.population *
                min 1 ((((speciesOfType s .plant).map (fun p => p.population)).sum) / 1000) -
              ((speciesOfType s .predator).map
                (fun predator =>
                  predator.predationRate.getD 0 * prey.population *
                    predator.population)).sum) }) := by
  rw [preyStep, hlp]

theorem predatorStep_eq_some (s : List (String × Species)) (pid : String)
    (predator : Species) (hlp : lookupA s pid = some predator) :
    predatorStep s pid =
      setA s pid
        { predator with
          population := max 0 (predator.population +
            ((speciesOfType s .prey).map
              (fun prey =>
                predator.conversionRate.getD 0 * predator.predationRate.getD 0 *
                  prey.population * predator.population)).sum -
            predator.mortalityRate.getD (1 / 10) * predator.population) } := by
  rw [predatorStep, hlp]

theorem spNonNeg_setA (s : List (String × Species)) (k : String) (v : Species)
    (hv : 0 ≤ v.population) (h : SpNonNeg s) : SpNonNeg (setA s k v) := by
  intro q hq
  rcases mem_setA s k v q hq with rfl | hq'
  · exact hv
  · exact h q hq'

theorem spNonNeg_mapVals (f : Species → Species)
    (hf : ∀ sp, 0 ≤ sp.population → 0 ≤ (f sp).population)
    (s : List (String × Species)) (h : SpNonNeg s) : SpNonNeg (mapVals f s) := by
  intro q hq
  obtain ⟨p, hp, hq'⟩ := mem_mapVals f s q hq
  rw [hq']
  exact hf p.2 (h p hp)

theorem plantGrowth_nonneg (rm : ℚ) (sp : Species) :
    0 ≤ (if sp.type = .plant then updateLogisticGrowth rm sp else sp).population →
      True := fun _ => trivial

theorem spNonNeg_updateEcosystem (season : Season) (eco : Ecosystem)
    (h : SpNonNeg eco.species) : SpNonNeg (updateEcosystem season eco).species := by
  unfold updateEcosystem
  show SpNonNeg (updateStability _).species
  rw [updateStability]
  apply foldl_preserve SpNonNeg predatorStep ?hpred
  case hpred =>
    intro a x ha
    cases hlp : lookupA a x with
    | none => rw [predatorStep, hlp]; exact ha
    | some predator =>
      rw [predatorStep_eq_some a x predator hlp]
      exact spNonNeg_setA _ _ _ (le_max_left _ _) ha
  apply foldl_preserve SpNonNeg preyStep ?hprey
  case hprey =>
    intro a x ha
    cases hlp : lookupA a x with
    | none => rw [preyStep, hlp]; exact ha
    | some prey =>
      rw [preyStep_eq_some a x prey hlp]
      apply spNonNeg_mapVals
      · intro sp hsp
        by_cases hc : sp.type = .plant
        · rw [if_pos hc]
          exact le_max_left _ _
        · rw [if_neg hc]
          exact hsp
      · exact spNonNeg_setA _ _ _ (le_max_left _ _) ha
  apply spNonNeg_mapVals
  · intro sp hsp
    by_cases hc : sp.type = .plant
    · rw [if_pos hc]
      show 0 ≤ max 0 _
      exact le_max_left _ _
    · rw [if_neg hc]
      exact hsp
  · exact h

theorem popSp_mapVals (f : Species → Species) (s : List (String × Species)) (sid : String)
    (sp : Species) (hl : lookupA s sid = some sp) :
    popSp (mapVals f s) sid = some (f sp).population := by
  rw [popSp, lookupA_mapVals, hl]
  rfl

theorem popSp_some (s : List (String × Species)) (sid : String) (hz : popSp s sid = some 0) :
    ∃ sp, lookupA s sid = some sp ∧ sp.population = 0 := by
  rw [popSp] at hz
  cases hl : lookupA s sid with
  | none => rw [hl] at hz; exact absurd hz (by simp)
  | some sp =>
    rw [hl] at hz
    exact ⟨sp, rfl, by simpa using hz⟩

theorem popSp_preyStep_zero (s : List (String × Species)) (preyId sid : String)
    (hnn : SpNonNeg s) (hz : popSp s sid = some 0) :
    popSp (preyStep s preyId) sid = some 0 := by
  obtain ⟨sp, hl, hsp⟩ := popSp_some s sid hz
  cases hlp : lookupA s preyId with
  | none =>
    rw [preyStep, hlp]
    exact hz
  | some prey =>
    have hNpos : 0 ≤ prey.population := hnn (preyId, prey) (lookupA_mem s preyId prey hlp)
    rw [preyStep_eq_some s preyId prey hlp]
    by_cases hks : sid = preyId
    · subst hks
      have hps : prey = sp := Option.some_inj.mp (hlp ▸ hl)
      subst hps
      rw [popSp_mapVals _ _ sid _ (lookupA_setA_self s sid _)]
      have hg : prey.growthRate * prey.population *
          min 1 ((((speciesOfType s .plant).map (fun p => p.population)).sum) / 1000) = 0 := by
        rw [hsp]
        ring
      have hloss : ((speciesOfType s .predator).map
          (fun predator =>
            predator.predationRate.getD 0 * prey.population * predator.population)).sum = 0 := by
        apply List.sum_eq_zero
        intro x hx
        obtain ⟨pr, _, hx'⟩ := List.mem_map.mp hx
        rw [← hx', hsp]
        ring
      by_cases hc : ({ prey with
          population := max 0 (prey.population +
            prey.growthRate * prey.population *
              min 1 ((((speciesOfType s .plant).map (fun p => p.population)).sum) / 1000) -
            ((speciesOfType s .predator).map
              (fun predator =>
                predator.predationRate.getD 0 * prey.population *
                  predator.population)).sum) } : Species).type = .plant
      · rw [if_pos hc]
        simp only [Option.some_inj]
        show max 0 (max 0 (prey.population + _ - _) - prey.population * (1 / 100)) = 0
        rw [hg, hloss, hsp]
        norm_num
      · rw [if_neg hc]
        simp only [Option.some_inj]
        show max 0 (prey.population + _ - _) = 0
        rw [hg, hloss, hsp]
        norm_num
    · rw [popSp, lookupA_mapVals, lookupA_setA_ne s preyId sid _ hks, hl]
      simp only [Option.map_some', Option.some_inj]
      by_cases hc : sp.type = .plant
      · rw [if_pos hc]
        show max 0 (sp.population - prey.population * (1 / 100)) = 0
        rw [hsp, max_eq_left]
        nlinarith
      · rw [if_neg hc]
        exact hsp

theorem popSp_predatorStep_zero (s : List (String × Species)) (pid sid : String)
    (hz : popSp s sid = some 0) : popSp (predatorStep s pid) sid = some 0 := by
  obtain ⟨sp, hl, hsp⟩ := popSp_some s sid hz
  cases hlp : lookupA s pid with
  | none =>
    rw [predatorStep, hlp]
    exact hz
  | some predator =>
    rw [predatorStep_eq_some s pid predator hlp]
    by_cases hks : sid = pid
    · subst hks
      have hps : predator = sp := Option.some_inj.mp (hlp ▸ hl)
      subst hps
      rw [popSp, lookupA_setA_self]
      simp only [Option.map_some', Option.some_inj]
      show max 0 (predator.population +
        ((speciesOfType s .prey).map
          (fun prey =>
            predator.conversionRate.getD 0 * predator.predationRate.getD 0 *
              prey.population * predator.population)).sum -
        predator.mortalityRate.getD (1 / 10) * predator.population) = 0
      have hgr : ((speciesOfType s .prey).map
          (fun prey =>
            predator.conversionRate.getD 0 * predator.predationRate.getD 0 *
              prey.population * predator.population)).sum = 0 := by
        apply List.sum_eq_zero
        intro x hx
        obtain ⟨pr, _, hx'⟩ := List.mem_map.mp hx
        rw [← hx', hsp]
        ring
      rw [hgr, hsp]
      norm_num
    · rw [popSp, lookupA_setA_ne s pid sid _ hks, hl]
      simp [hsp]

theorem popSp_plantGrowthMap_zero (rm : ℚ) (s : List (String × Species)) (sid : String)
    (hz : popSp s sid = some 0) :
    popSp (mapVals (fun sp => if sp.type = .plant then updateLogisticGrowth rm sp else sp) s)
      sid = some 0 := by
  obtain ⟨sp, hl, hsp⟩ := popSp_some s sid hz
  rw [popSp_mapVals _ _ sid sp hl]
  by_cases hc : sp.type = .plant
  · rw [if_pos hc]
    simp only [Option.some_inj]
    show max 0 (sp.population + sp.growthRate * rm * sp.population *
      (1 - sp.population / sp.carryingCapacity)) = 0
    rw [hsp]
    norm_num
  · rw [if_neg hc]
    simp [hsp]

theorem updateEcosystem_zero (season : Season) (eco : Ecosystem) (sid : String)
    (hnn : SpNonNeg eco.species) (hz : popSp eco.species sid = some 0) :
    popSp (updateEcosystem season eco).species sid = some 0 := by
  unfold updateEcosystem
  show popSp (updateStability _).species sid = some 0
  rw [updateStability]
  have hstep1 : ∀ (a : List (String × Species)) (x : String),
      SpNonNeg a ∧ popSp a sid = some 0 →
        SpNonNeg (preyStep a x) ∧ popSp (preyStep a x) sid = some 0 := by
    intro a x ha
    refine ⟨?_, popSp_preyStep_zero a x sid ha.1 ha.2⟩
    cases hlp : lookupA a x with
    | none => rw [preyStep, hlp]; exact ha.1
    | some prey =>
      rw [preyStep_eq_some a x prey hlp]
      apply spNonNeg_mapVals
      · intro sp hsp
        by_cases hc : sp.type = .plant
        · rw [if_pos hc]
          exact le_max_left _ _
        · rw [if_neg hc]
          exact hsp
      · exact spNonNeg_setA _ _ _ (le_max_left _ _) ha.1
  have hstep2 : ∀ (a : List (String × Species)) (x : String),
      SpNonNeg a ∧ popSp a sid = some 0 →
        SpNonNeg (predatorStep a x) ∧ popSp (predatorStep a x) sid = some 0 := by
    intro a x ha
    refine ⟨?_, popSp_predatorStep_zero a x sid ha.2⟩
    cases hlp : lookupA a x with
    | none => rw [predatorStep, hlp]; exact ha.1
    | some predator =>
      rw [predatorStep_eq_some a x predator hlp]
      exact spNonNeg_setA _ _ _ (le_max_left _ _) ha.1
  have hbase : SpNonNeg
      (mapVals (fun sp => if sp.type = .plant then
        updateLogisticGrowth (resourceMultiplierOf season) sp else sp) eco.species) ∧
      popSp (mapVals (fun sp => if sp.type = .plant then
        updateLogisticGrowth (resourceMultiplierOf season) sp else sp) eco.species) sid =
        some 0 := by
    constructor
    · apply spNonNeg_mapVals
      · intro sp hsp
        by_cases hc : sp.type = .plant
        · rw [if_pos hc]
          show 0 ≤ max 0 _
          exact le_max_left _ _
        · rw [if_neg hc]
          exact hsp
      · exact hnn
    · exact popSp_plantGrowthMap_zero _ _ sid hz
  exact (foldl_preserve (fun s => SpNonNeg s ∧ popSp s sid = some 0) predatorStep hstep2 _ _
    (foldl_preserve (fun s => SpNonNeg s ∧ popSp s sid = some 0) preyStep hstep1 _ _
      hbase)).2

theorem ecoStep_preserves {ecos ecos' : List (String × Ecosystem)}
    (h : EcoStep ecos ecos') (hnn : EcoNonNeg ecos) :
    EcoNonNeg ecos' ∧
      ∀ L S, populationAt ecos L S = some 0 → populationAt ecos' L S = some 0 := by
  cases h with
  | update season =>
    constructor
    · intro p hp
      obtain ⟨q, hq, hq'⟩ := mem_mapVals _ ecos p hp
      rw [hq']
      exact spNonNeg_updateEcosystem season q.2 (fun sp hsp => hnn q hq sp hsp)
    · intro L S hz
      rw [populationAt] at hz ⊢
      rw [ecosystemUpdate, lookupA_mapVals (updateEcosystem season) ecos L]
      cases hl : lookupA ecos L with
      | none => rw [hl] at hz; exact absurd hz (by simp)
      | some eco =>
        rw [hl] at hz
        simp only [Option.map_some', Option.some_bind] at hz ⊢
        have hsn : SpNonNeg eco.species :=
          fun sp hsp => hnn (L, eco) (lookupA_mem ecos L eco hl) sp hsp
        exact updateEcosystem_zero season eco S hsn hz
  | huntCall locationId speciesId quantity =>
    cases hle : lookupA ecos locationId with
    | none =>
      have he : (hunt ecos locationId speciesId quantity).1 = ecos := by
        rw [hunt, hle]
      rw [he]
      exact ⟨hnn, fun L S hz => hz⟩
    | some eco =>
      cases hls : lookupA eco.species speciesId with
      | none =>
        have he : (hunt ecos locationId speciesId quantity).1 = ecos := by
          rw [hunt]
          simp [hle, hls]
        rw [he]
        exact ⟨hnn, fun L S hz => hz⟩
      | some species =>
        by_cases hpl : species.type = .plant
        · have he : (hunt ecos locationId speciesId quantity).1 = ecos := by
            rw [hunt]
            simp only [hle, hls]
            rw [if_pos hpl]
          rw [he]
          exact ⟨hnn, fun L S hz => hz⟩
        · by_cases hcl : min quantity (species.population * (1 / 10)) < 1
          · have he : (hunt ecos locationId speciesId quantity).1 = ecos := by
              rw [hunt]
              simp only [hle, hls]
              rw [if_neg hpl, if_pos hcl]
            rw [he]
            exact ⟨hnn, fun L S hz => hz⟩
          · have he : (hunt ecos locationId speciesId quantity).1 =
                setA ecos locationId
                  { eco with
                    species := setA eco.species speciesId
                      { species with
                        population := species.population -
                          min quantity (species.population * (1 / 10)) } } := by
              rw [hunt]
              simp only [hle, hls]
              rw [if_neg hpl, if_neg hcl]
            rw [he]
            have hsnn : 0 ≤ species.population :=
              hnn (locationId, eco) (lookupA_mem _ _ _ hle) (speciesId, species)
                (lookupA_mem _ _ _ hls)
            have hnewpop :
                0 ≤ species.population - min quantity (species.population * (1 / 10)) := by
              have : min quantity (species.population * (1 / 10)) ≤
                  species.population * (1 / 10) := min_le_right _ _
              nlinarith
            constructor
            · intro p hp
              rcases mem_setA _ _ _ _ hp with rfl | hp'
              · intro q hq
                rcases mem_setA _ _ _ _ hq with rfl | hq'
                · exact hnewpop
                · exact hnn (locationId, eco) (lookupA_mem _ _ _ hle) q hq'
              · exact hnn p hp'
            · intro L S hz
              rw [populationAt] at hz ⊢
              by_cases hLl : L = locationId
              · subst hLl
                rw [lookupA_setA_self]
                rw [hle] at hz
                simp only [Option.some_bind] at hz ⊢
                by_cases hSs : S = speciesId
                · subst hSs
                  rw [hls] at hz
                  simp only [Option.map_some', Option.some_inj] at hz
                  exfalso
                  apply hcl
                  calc min quantity (species.population * (1 / 10)) ≤
                      species.population * (1 / 10) := min_le_right _ _
                    _ = 0 := by rw [hz]; ring
                    _ < 1 := by norm_num
                · rw [lookupA_setA_ne _ _ _ _ hSs]
                  exact hz
              · rw [lookupA_setA_ne _ _ _ _ hLl]
                exact hz

/-- C8: populations are never negative, and a species with population exactly
0 stays at 0 under every sequence of `update()` and `hunt` calls (the
logistic, prey and predator terms all vanish at zero population). -/
theorem ecosystem_population_invariant (ecos ecos' : List (String × Ecosystem))
    (h : Star EcoStep ecos ecos') (hnn : EcoNonNeg ecos) :
    EcoNonNeg ecos' ∧
      ∀ L S, populationAt ecos L S = some 0 → populationAt ecos' L S = some 0 := by
  induction h with
  | refl => exact ⟨hnn, fun L S hz => hz⟩
  | tail hab hbc ih =>
    obtain ⟨hnnb, hzb⟩ := ih
    obtain ⟨hnnc, hzc⟩ := ecoStep_preserves hbc hnnb
    exact ⟨hnnc, fun L S hz => hzc L S (hzb L S hz)⟩

/-- Witness for C8: one update tick over a concrete ecosystem with a
zero-population plant. -/
theorem ecosystem_population_invariant_witness :
    EcoNonNeg (ecosystemUpdate .spring fixtureEcosystems) ∧
      ∀ L S, populationAt fixtureEcosystems L S = some 0 →
        populationAt (ecosystemUpdate .spring fixtureEcosystems) L S = some 0 :=
  ecosystem_population_invariant fixtureEcosystems (ecosystemUpdate .spring fixtureEcosystems)
    (Star.tail (Star.refl _) (EcoStep.update _ .spring))
    (by
      intro p hp q hq
      simp only [fixtureEcosystems, List.mem_singleton] at hp
      subst hp
      simp only [List.mem_singleton] at hq
      subst hq
      norm_num [fixtureSpecies])

/-! ## C7: economy price bounds -/

theorem mem_mapValsK {β γ : Type} (f : String → β → γ) (l : List (String × β))
    (q : String × γ) (hq : q ∈ mapValsK f l) : ∃ p ∈ l, q = (p.1, f p.1 p.2) := by
  obtain ⟨p, hp, hq'⟩ := List.mem_map.mp hq
  exact ⟨p, hp, hq'.symm⟩

theorem BASE_PRICES_pos (goods : GoodsType) : 0 < BASE_PRICES goods := by
  cases goods <;> norm_num [BASE_PRICES]

theorem clampR_bounds (v lo hi : ℝ) (h : lo ≤ hi) :
    lo ≤ clampR v lo hi ∧ clampR v lo hi ≤ hi :=
  ⟨le_max_left _ _, max_le h (min_le_left _ _)⟩

theorem priceInv_updatePricesM (inflationRate : ℝ) (markets : List (String × Market)) :
    PriceInv (updatePricesM inflationRate markets) := by
  intro p hp goods
  obtain ⟨q, _, hq'⟩ := mem_mapVals _ markets p hp
  rw [hq']
  show BASE_PRICES goods * (1 / 2) ≤ clampR _ (BASE_PRICES goods * (1 / 2)) (BASE_PRICES goods * 3) ∧
    clampR _ (BASE_PRICES goods * (1 / 2)) (BASE_PRICES goods * 3) ≤ BASE_PRICES goods * 3
  apply clampR_bounds
  nlinarith [BASE_PRICES_pos goods]

theorem supplyDemandGoods_prices (location : Location) (season : Season)
    (plagueActive : Bool) (prodDraw demDraw : GoodsType → ℝ) (m : Market)
    (goods : GoodsType) :
    (supplyDemandGoods location season plagueActive prodDraw demDraw m goods).prices =
      m.prices := rfl

theorem foldl_supplyDemand_prices (location : Location) (season : Season)
    (plagueActive : Bool) (prodDraw demDraw : GoodsType → ℝ) (l : List GoodsType) :
    ∀ m : Market,
      (l.foldl (supplyDemandGoods location season plagueActive prodDraw demDraw) m).prices =
        m.prices := by
  induction l with
  | nil => intro m; rfl
  | cons g rest ih =>
    intro m
    rw [List.foldl_cons, ih, supplyDemandGoods_prices]

theorem priceInv_updateSupplyDemandM (w : WorldState)
    (prodDraw demDraw : String → GoodsType → ℝ) (markets : List (String × Market))
    (h : PriceInv markets) : PriceInv (updateSupplyDemandM w prodDraw demDraw markets) := by
  intro p hp goods
  obtain ⟨q, hq, hq'⟩ := mem_mapValsK _ markets p hp
  rw [hq']
  show (match lookupA w.locations q.2.locationId with
    | none => q.2
    | some location =>
      goodsList.foldl
        (supplyDemandGoods location w.globalState.season w.globalState.plagueActive
          (prodDraw q.1) (demDraw q.1)) q.2).prices goods ∈
      Set.Icc (BASE_PRICES goods * (1 / 2)) (BASE_PRICES goods * 3)
  cases hl : lookupA w.locations q.2.locationId with
  | none => exact ⟨(h q hq goods).1, (h q hq goods).2⟩
  | some location =>
    rw [foldl_supplyDemand_prices]
    exact ⟨(h q hq goods).1, (h q hq goods).2⟩

theorem priceInv_setA (markets : List (String × Market)) (k : String) (m : Market)
    (hm : ∀ goods, BASE_PRICES goods * (1 / 2) ≤ m.prices goods ∧
      m.prices goods ≤ BASE_PRICES goods * 3)
    (h : PriceInv markets) : PriceInv (setA markets k m) := by
  intro p hp goods
  rcases mem_setA _ _ _ _ hp with rfl | hp'
  · exact hm goods
  · exact h p hp' goods

theorem priceInv_tradeGoodsStep (markets : List (String × Market))
    (locId connectedId : String) (goods : GoodsType) (h : PriceInv markets) :
    PriceInv (tradeGoodsStep markets locId connectedId goods) := by
  rw [tradeGoodsStep]
  cases hm1 : lookupA markets locId with
  | none => exact h
  | some market =>
    simp only [hm1]
    cases hm2 : lookupA markets connectedId with
    | none => exact h
    | some connectedMarket =>
      simp only []
      split_ifs with hp hs
      · have h1 : PriceInv (setA markets connectedId
            { connectedMarket with
              supply := funUpdate connectedMarket.supply goods
                (connectedMarket.supply goods - 5) }) :=
          priceInv_setA _ _ _ (fun g => h _ (lookupA_mem _ _ _ hm2) g) h
        cases hm3 : lookupA (setA markets connectedId
            { connectedMarket with
              supply := funUpdate connectedMarket.supply goods
                (connectedMarket.supply goods - 5) }) locId with
        | none => exact h1
        | some market1 =>
          exact priceInv_setA _ _ _ (fun g => h1 _ (lookupA_mem _ _ _ hm3) g) h1
      · exact h
      · exact h

theorem priceInv_updateTradeRoutes (w : WorldState) (markets : List (String × Market))
    (h : PriceInv markets) : PriceInv (updateTradeRoutes w markets) := by
  rw [updateTradeRoutes]
  apply foldl_preserve PriceInv _ ?hstep _ _ h
  case hstep =>
    intro ms location hms
    apply foldl_preserve PriceInv _ ?hstep2 _ _ hms
    case hstep2 =>
      intro ms2 connectedId hms2
      apply foldl_preserve PriceInv _ ?hstep3 _ _ hms2
      case hstep3 =>
        intro ms3 goods hms3
        exact priceInv_tradeGoodsStep ms3 location.id connectedId goods hms3

theorem priceInv_economyUpdate (w : WorldState)
    (prodDraw demDraw : String → GoodsType → ℝ) (st : EconomyState) :
    PriceInv (economyUpdate w prodDraw demDraw st).markets := by
  rw [economyUpdate]
  exact priceInv_updateTradeRoutes _ _
    (priceInv_updateSupplyDemandM _ _ _ _ (priceInv_updatePricesM _ _))

theorem priceInv_economyInit (w : WorldState) (sDraw dDraw : String → GoodsType → ℝ) :
    PriceInv (economyInit w sDraw dDraw).markets := by
  show PriceInv (initializeMarkets w sDraw dDraw)
  rw [initializeMarkets]
  apply foldl_preserve PriceInv _ ?hstep _ _ ?hbase
  case hstep =>
    intro ms location hms
    split_ifs with hcity
    · apply priceInv_setA _ _ _ ?hm hms
      case hm =>
        intro goods
        show BASE_PRICES goods * (1 / 2) ≤ BASE_PRICES goods ∧
          BASE_PRICES goods ≤ BASE_PRICES goods * 3
        constructor <;> nlinarith [BASE_PRICES_pos goods]
    · exact hms
  case hbase =>
    intro p hp
    exact absurd hp (List.not_mem_nil p)

/-- C7: for every market and goods type, the stored price stays within
`[0.5 × basePrice, 3 × basePrice]` through every finite sequence of
`Economy.update()` calls starting from the constructor's initial markets. -/
theorem economy_prices_bounded (w0 : WorldState) (sDraw dDraw : String → GoodsType → ℝ)
    (st : EconomyState) (h : Star EconStep (economyInit w0 sDraw dDraw) st) :
    PriceInv st.markets := by
  induction h with
  | refl => exact priceInv_economyInit w0 sDraw dDraw
  | tail hab hbc ih =>
    cases hbc with
    | update w prodDraw demDraw => exact priceInv_economyUpdate w prodDraw demDraw _

/-- Witness for C7 after one concrete update tick. -/
theorem economy_prices_bounded_witness :
    PriceInv
      (economyUpdate fixtureEconWorld (fun _ _ => 1) (fun _ _ => 1)
        (economyInit fixtureEconWorld (fun _ _ => 1) (fun _ _ => 1))).markets :=
  economy_prices_bounded fixtureEconWorld (fun _ _ => 1) (fun _ _ => 1) _
    (Star.tail (Star.refl _)
      (EconStep.update _ fixtureEconWorld (fun _ _ => 1) (fun _ _ => 1)))

/-! ## C5: disease transmission -/

theorem getRelation_snd_readRel (g : RelationGraph) (x y : String) :
    (getRelation g x y).2 = readRel g x y := by
  rw [getRelation, readRel, readRelOpt]
  cases hx : lookupA g x with
  | none => rfl
  | some es =>
    cases hy : lookupA es y with
    | none => simp [hy]
    | some r => simp [hy]

theorem getRelation_fst_readRel (g : RelationGraph) (x y f t : String) :
    readRel (getRelation g x y).1 f t = readRel g f t := by
  cases hx : lookupA g x with
  | none =>
    have hgr : getRelation g x y = (setA g x [(y, DEFAULT_RELATION)], DEFAULT_RELATION) := by
      rw [getRelation, hx]
    rw [hgr]
    by_cases hf : f = x
    · subst hf
      rw [readRel, readRel, readRelOpt, readRelOpt, lookupA_setA_self, hx]
      simp only [Option.some_bind, Option.none_bind, Option.getD_none]
      by_cases hyt : y = t
      · simp [lookupA, hyt]
      · simp [lookupA, hyt]
    · rw [readRel, readRel, readRelOpt, readRelOpt, lookupA_setA_ne g x f _ hf]
  | some es =>
    cases hy : lookupA es y with
    | none =>
      have hgr : getRelation g x y =
          (setA g x (es ++ [(y, DEFAULT_RELATION)]), DEFAULT_RELATION) := by
        rw [getRelation, hx]
        simp [hy]
      rw [hgr]
      by_cases hf : f = x
      · subst hf
        rw [readRel, readRel, readRelOpt, readRelOpt, lookupA_setA_self, hx]
        simp only [Option.some_bind]
        rw [lookupA_append]
        cases ht : lookupA es t with
        | none =>
          by_cases hyt : y = t
          · simp [lookupA, hyt]
          · simp [lookupA, hyt]
        | some r => simp
      · rw [readRel, readRel, readRelOpt, readRelOpt, lookupA_setA_ne g x f _ hf]
    | some r =>
      have hgr : getRelation g x y = (g, r) := by
        rw [getRelation, hx]
        simp [hy]
      rw [hgr]

theorem updateIndividualHealth_susceptible (diseases : List (String × DiseaseType))
    (s : HealthStatus) (turn : ℤ) (rd md : ℚ) (hst : s.state = .susceptible) :
    updateIndividualHealth diseases s turn rd md = s := by
  unfold updateIndividualHealth
  cases hdid : s.diseaseId with
  | none => rfl
  | some dId =>
    cases hl : lookupA diseases dId with
    | none => simp [hl]
    | some disease => simp [hl, hst]

theorem updateIndividualHealth_infected_noroll (diseases : List (String × DiseaseType))
    (s : HealthStatus) (turn : ℤ) (rd md : ℚ) (dId : String) (disease : DiseaseType)
    (hdid : s.diseaseId = some dId) (hl : lookupA diseases dId = some disease)
    (hst : s.state = .infected) (h0r : disease.recoveryRate = 0)
    (h0m : disease.mortalityRate = 0) (hrd : 0 ≤ rd) (hmd : 0 ≤ md) :
    updateIndividualHealth diseases s turn rd md = s := by
  unfold updateIndividualHealth
  rw [hdid]
  simp only [hl, hst, rollSuccess, h0r, h0m]
  rw [if_neg (by simp [not_lt.mpr hrd]), if_neg (by simp [not_lt.mpr hmd])]

theorem spreadInner_readRel (hs : List (String × HealthStatus))
    (td : String → String → ℚ) (character : Character) (disease : DiseaseType)
    (acc2 : RelationGraph × List (String × String)) (nearby : Character) (f t : String) :
    readRel (spreadInner hs td character disease acc2 nearby).1 f t =
      readRel acc2.1 f t := by
  rw [spreadInner]
  by_cases hid : nearby.id = character.id
  · rw [if_pos hid]
  · rw [if_neg hid]
    cases hl : lookupA hs nearby.id with
    | none => rfl
    | some ns =>
      show readRel
          (if ns.state = .susceptible then
            if rollSuccess
                (disease.transmissionRate *
                  contactFactor (getRelation acc2.1 character.id nearby.id).2.trust)
                (td character.id nearby.id) then
              ((getRelation acc2.1 character.id nearby.id).1,
                acc2.2 ++ [(nearby.id, disease.id)])
            else ((getRelation acc2.1 character.id nearby.id).1, acc2.2)
          else acc2).1 f t = readRel acc2.1 f t
      split_ifs with h1 h2
      · exact getRelation_fst_readRel acc2.1 character.id nearby.id f t
      · exact getRelation_fst_readRel acc2.1 character.id nearby.id f t
      · rfl

theorem spreadInner_mem (hs : List (String × HealthStatus)) (td : String → String → ℚ)
    (character : Character) (disease : DiseaseType)
    (acc2 : RelationGraph × List (String × String)) (nearby : Character)
    (x : String × String) (hx : x ∈ acc2.2) :
    x ∈ (spreadInner hs td character disease acc2 nearby).2 := by
  rw [spreadInner]
  by_cases hid : nearby.id = character.id
  · rw [if_pos hid]; exact hx
  · rw [if_neg hid]
    cases hl : lookupA hs nearby.id with
    | none => exact hx
    | some ns =>
      show x ∈
        (if ns.state = .susceptible then
          if rollSuccess
              (disease.transmissionRate *
                contactFactor (getRelation acc2.1 character.id nearby.id).2.trust)
              (td character.id nearby.id) then
            ((getRelation acc2.1 character.id nearby.id).1,
              acc2.2 ++ [(nearby.id, disease.id)])
          else ((getRelation acc2.1 character.id nearby.id).1, acc2.2)
        else acc2).2
      split_ifs with h1 h2
      · exact List.mem_append_left _ hx
      · exact hx
      · exact hx

theorem foldl_spreadInner_readRel (hs : List (String × HealthStatus))
    (td : String → String → ℚ) (character : Character) (disease : DiseaseType)
    (l : List Character) :
    ∀ (acc2 : RelationGraph × List (String × String)) (f t : String),
      readRel ((l.foldl (spreadInner hs td character disease) acc2).1) f t =
        readRel acc2.1 f t := by
  induction l with
  | nil => intro acc2 f t; rfl
  | cons c rest ih =>
    intro acc2 f t
    rw [List.foldl_cons, ih, spreadInner_readRel]

theorem foldl_spreadInner_mem (hs : List (String × HealthStatus))
    (td : String → String → ℚ) (character : Character) (disease : DiseaseType)
    (l : List Character) :
    ∀ (acc2 : RelationGraph × List (String × String)) (x : String × String),
      x ∈ acc2.2 → x ∈ (l.foldl (spreadInner hs td character disease) acc2).2 := by
  induction l with
  | nil => intro acc2 x hx; exact hx
  | cons c rest ih =>
    intro acc2 x hx
    rw [List.foldl_cons]
    exact ih _ x (spreadInner_mem hs td character disease acc2 c x hx)

theorem spreadOuter_readRel (w : WorldState) (hs : List (String × HealthStatus))
    (diseases : List (String × DiseaseType)) (td : String → String → ℚ)
    (acc : RelationGraph × List (String × String)) (character : Character) (f t : String) :
    readRel (spreadOuter w hs diseases td acc character).1 f t = readRel acc.1 f t := by
  rw [spreadOuter]
  cases hl : lookupA hs character.id with
  | none => rfl
  | some status =>
    show readRel
        (if status.state = .infected then
          match lookupA diseases (status.diseaseId.getD "") with
          | none => acc
          | some disease =>
            (getCharactersAt w character.location).foldl
              (spreadInner hs td character disease) acc
        else acc).1 f t = readRel acc.1 f t
    split_ifs with hinf
    · cases hld : lookupA diseases (status.diseaseId.getD "") with
      | none => rfl
      | some disease =>
        show readRel
            ((getCharactersAt w character.location).foldl
              (spreadInner hs td character disease) acc).1 f t = readRel acc.1 f t
        exact foldl_spreadInner_readRel hs td character disease _ acc f t
    · rfl

theorem spreadOuter_mem (w : WorldState) (hs : List (String × HealthStatus))
    (diseases : List (String × DiseaseType)) (td : String → String → ℚ)
    (acc : RelationGraph × List (String × String)) (character : Character)
    (x : String × String) (hx : x ∈ acc.2) :
    x ∈ (spreadOuter w hs diseases td acc character).2 := by
  rw [spreadOuter]
  cases hl : lookupA hs character.id with
  | none => exact hx
  | some status =>
    show x ∈
      (if status.state = .infected then
        match lookupA diseases (status.diseaseId.getD "") with
        | none => acc
        | some disease =>
          (getCharactersAt w character.location).foldl
            (spreadInner hs td character disease) acc
      else acc).2
    split_ifs with hinf
    · cases hld : lookupA diseases (status.diseaseId.getD "") with
      | none => exact hx
      | some disease =>
        show x ∈
          ((getCharactersAt w character.location).foldl
            (spreadInner hs td character disease) acc).2
        exact foldl_spreadInner_mem hs td character disease _ acc x hx
    · exact hx

theorem foldl_spreadInner_hit (g0 : RelationGraph) (hs : List (String × HealthStatus))
    (td : String → String → ℚ) (character : Character) (disease : DiseaseType)
    (A B : String) (cB : Character) (stB : HealthStatus)
    (hAid : character.id = A) (hBid : cB.id = B) (hAB : A ≠ B)
    (hstB : lookupA hs B = some stB) (hsus : stB.state = .susceptible)
    (htrans : 1 ≤ disease.transmissionRate * contactFactor (readRel g0 A B).trust)
    (htd : td A B < 1) (l : List Character) :
    ∀ (acc2 : RelationGraph × List (String × String)),
      cB ∈ l → (∀ f t, readRel acc2.1 f t = readRel g0 f t) →
      (B, disease.id) ∈ (l.foldl (spreadInner hs td character disease) acc2).2 := by
  induction l with
  | nil => intro acc2 hmem _; cases hmem
  | cons c rest ih =>
    intro acc2 hmem hpres
    rw [List.foldl_cons]
    rcases List.mem_cons.mp hmem with rfl | hmem'
    · apply foldl_spreadInner_mem
      rw [spreadInner]
      have hid : ¬cB.id = character.id := by
        rw [hBid, hAid]
        exact fun h => hAB h.symm
      rw [if_neg hid, hBid, hstB]
      show (B, disease.id) ∈
        (if stB.state = .susceptible then
          if rollSuccess
              (disease.transmissionRate *
                contactFactor (getRelation acc2.1 character.id B).2.trust)
              (td character.id B) then
            ((getRelation acc2.1 character.id B).1, acc2.2 ++ [(B, disease.id)])
          else ((getRelation acc2.1 character.id B).1, acc2.2)
        else acc2).2
      rw [if_pos hsus]
      have htrust : (getRelation acc2.1 character.id B).2 = readRel g0 A B := by
        rw [getRelation_snd_readRel, hAid, hpres]
      have hroll : rollSuccess
          (disease.transmissionRate *
            contactFactor (getRelation acc2.1 character.id B).2.trust)
          (td character.id B) = true := by
        rw [htrust, hAid, rollSuccess]
        simp only [decide_eq_true_eq]
        exact lt_of_lt_of_le htd htrans
      rw [if_pos hroll]
      show (B, disease.id) ∈ acc2.2 ++ [(B, disease.id)]
      exact List.mem_append_right _ (List.mem_singleton.mpr rfl)
    · apply ih _ hmem'
      intro f t
      rw [spreadInner_readRel, hpres]

theorem foldl_spreadOuter_mem (w : WorldState) (hs : List (String × HealthStatus))
    (diseases : List (String × DiseaseType)) (td : String → String → ℚ)
    (l : List Character) :
    ∀ (acc : RelationGraph × List (String × String)) (x : String × String),
      x ∈ acc.2 → x ∈ (l.foldl (spreadOuter w hs diseases td) acc).2 := by
  induction l with
  | nil => intro acc x hx; exact hx
  | cons c rest ih =>
    intro acc x hx
    rw [List.foldl_cons]
    exact ih _ x (spreadOuter_mem w hs diseases td acc c x hx)

theorem foldl_spreadOuter_hit (w : WorldState) (hs : List (String × HealthStatus))
    (diseases : List (String × DiseaseType)) (td : String → String → ℚ)
    (A B dId : String) (cA cB : Character) (stA stB : HealthStatus) (disease : DiseaseType)
    (hAid : cA.id = A) (hBid : cB.id = B) (hAB : A ≠ B)
    (hstA : lookupA hs A = some stA) (hinf : stA.state = .infected)
    (hdid : stA.diseaseId = some dId) (hdis : lookupA diseases dId = some disease)
    (hstB : lookupA hs B = some stB) (hsus : stB.state = .susceptible)
    (hmemB : cB ∈ getCharactersAt w cA.location)
    (htrans : 1 ≤ disease.transmissionRate *
      contactFactor (readRel w.relations A B).trust)
    (htd : td A B < 1) (l : List Character) :
    ∀ (acc : RelationGraph × List (String × String)),
      cA ∈ l → (∀ f t, readRel acc.1 f t = readRel w.relations f t) →
      (B, disease.id) ∈ (l.foldl (spreadOuter w hs diseases td) acc).2 := by
  induction l with
  | nil => intro acc hmem _; cases hmem
  | cons c rest ih =>
    intro acc hmem hpres
    rw [List.foldl_cons]
    rcases List.mem_cons.mp hmem with rfl | hmem'
    · -- this iteration is the infected character's
      have hstep : (B, disease.id) ∈ (spreadOuter w hs diseases td acc cA).2 := by
        rw [spreadOuter, hAid, hstA]
        show (B, disease.id) ∈
          (if stA.state = .infected then
            match lookupA diseases (stA.diseaseId.getD "") with
            | none => acc
            | some disease =>
              (getCharactersAt w cA.location).foldl (spreadInner hs td cA disease) acc
          else acc).2
        rw [if_pos hinf, hdid]
        show (B, disease.id) ∈
          (match lookupA diseases dId with
          | none => acc
          | some disease =>
            (getCharactersAt w cA.location).foldl (spreadInner hs td cA disease) acc).2
        rw [hdis]
        exact foldl_spreadInner_hit w.relations hs td cA disease A B cB stB hAid hBid hAB
          hstB hsus htrans htd _ acc hmemB hpres
      exact foldl_spreadOuter_mem w hs diseases td rest _ _ hstep
    · apply ih _ hmem'
      intro f t
      rw [spreadOuter_readRel, hpres]

theorem infectSystem_eq_none (ds : DiseaseSystem) (t : ℤ) (c d : String)
    (hl : lookupA ds.healthStatuses c = none) : infectSystem ds t c d = ds := by
  rw [infectSystem, hl]

theorem infectSystem_eq_nosus (ds : DiseaseSystem) (t : ℤ) (c d : String)
    (status : HealthStatus) (hl : lookupA ds.healthStatuses c = some status)
    (hs : ¬status.state = .susceptible) : infectSystem ds t c d = ds := by
  rw [infectSystem, hl]
  simp [infectStatus, hs]

theorem infectSystem_eq_sus (ds : DiseaseSystem) (t : ℤ) (c d : String)
    (status : HealthStatus) (hl : lookupA ds.healthStatuses c = some status)
    (hs : status.state = .susceptible) :
    infectSystem ds t c d =
      { ds with
        healthStatuses := setA ds.healthStatuses c
          { status with state := .exposed, diseaseId := some d, exposedTurn := t }
        activeOutbreaks := insertNode ds.activeOutbreaks d } := by
  rw [infectSystem, hl]
  simp [infectStatus, hs]

theorem infectSystem_exposed_stable (ds : DiseaseSystem) (t : ℤ) (c d B : String)
    (h : (lookupA ds.healthStatuses B).map (fun s => s.state) = some .exposed) :
    (lookupA (infectSystem ds t c d).healthStatuses B).map (fun s => s.state) =
      some .exposed := by
  cases hl : lookupA ds.healthStatuses c with
  | none => rw [infectSystem_eq_none ds t c d hl]; exact h
  | some status =>
    by_cases hs : status.state = .susceptible
    · rw [infectSystem_eq_sus ds t c d status hl hs]
      by_cases hcB : c = B
      · subst hcB
        rw [hl] at h
        simp only [Option.map_some', Option.some_inj] at h
        exact absurd (h ▸ hs) (by simp)
      · show (lookupA (setA ds.healthStatuses c _) B).map (fun s => s.state) = some .exposed
        rw [lookupA_setA_ne _ _ _ _ (fun hh => hcB hh.symm)]
        exact h
    · rw [infectSystem_eq_nosus ds t c d status hl hs]; exact h

theorem infectFold_exposed_stable (t : ℤ) (infs : List (String × String)) (B : String) :
    ∀ ds : DiseaseSystem,
      (lookupA ds.healthStatuses B).map (fun s => s.state) = some .exposed →
      (lookupA
          ((infs.foldl (fun acc inf => infectSystem acc t inf.1 inf.2) ds)).healthStatuses
          B).map (fun s => s.state) = some .exposed := by
  induction infs with
  | nil => intro ds h; exact h
  | cons p rest ih =>
    intro ds h
    rw [List.foldl_cons]
    exact ih _ (infectSystem_exposed_stable ds t p.1 p.2 B h)

theorem infectFold_exposes (t : ℤ) (infs : List (String × String)) (B : String) :
    ∀ (ds : DiseaseSystem) (stB : HealthStatus), (∃ d', (B, d') ∈ infs) →
      lookupA ds.healthStatuses B = some stB → stB.state = .susceptible →
      (lookupA
          ((infs.foldl (fun acc inf => infectSystem acc t inf.1 inf.2) ds)).healthStatuses
          B).map (fun s => s.state) = some .exposed := by
  induction infs with
  | nil =>
    intro ds stB hmem _ _
    obtain ⟨d', hd'⟩ := hmem
    cases hd'
  | cons p rest ih =>
    intro ds stB hmem hl hs
    rw [List.foldl_cons]
    by_cases hcB : p.1 = B
    · -- this infect call hits B while it is susceptible: B becomes exposed
      have heq := infectSystem_eq_sus ds t p.1 p.2 stB (hcB ▸ hl) hs
      rw [heq]
      apply infectFold_exposed_stable
      show (lookupA (setA ds.healthStatuses p.1 _) B).map (fun s => s.state) = some .exposed
      rw [hcB, lookupA_setA_self]
      rfl
    · -- B's entry is untouched by this call; the hit is in the tail
      have hmem' : ∃ d', (B, d') ∈ rest := by
        obtain ⟨d', hd'⟩ := hmem
        rcases List.mem_cons.mp hd' with heq | hin
        · exact absurd (congrArg Prod.fst heq.symm) hcB
        · exact ⟨d', hin⟩
      have hlB : lookupA (infectSystem ds t p.1 p.2).healthStatuses B = some stB := by
        cases hl1 : lookupA ds.healthStatuses p.1 with
        | none => rw [infectSystem_eq_none ds t p.1 p.2 hl1]; exact hl
        | some status =>
          by_cases hs1 : status.state = .susceptible
          · rw [infectSystem_eq_sus ds t p.1 p.2 status hl1 hs1]
            show lookupA (setA ds.healthStatuses p.1 _) B = some stB
            rw [lookupA_setA_ne _ _ _ _ (fun hh => hcB hh.symm)]
            exact hl
          · rw [infectSystem_eq_nosus ds t p.1 p.2 status hl1 hs1]; exact hl
      exact ih _ stB hmem' hlB hs

/-- C5 (amended): if a character infected with a disease whose recovery and
mortality rates are 0 (so the same tick's health pass cannot remove it from
the infected state) shares a location with a susceptible character, and
`transmissionRate × contactFactor ≥ 1` for the infector's stored trust toward
the victim, then one `Disease.update()` moves the susceptible character to
exposed for every outcome of the random draws. -/
theorem disease_exposure_guaranteed (w : WorldState) (ds : DiseaseSystem)
    (rd md : String → ℚ) (td : String → String → ℚ) (A B dId : String)
    (cA cB : Character) (stA stB : HealthStatus) (disease : DiseaseType)
    (hAB : A ≠ B)
    (hcA : (A, cA) ∈ w.characters) (hcAid : cA.id = A)
    (hcB : (B, cB) ∈ w.characters) (hcBid : cB.id = B)
    (hloc : cB.location = cA.location)
    (hstA : lookupA ds.healthStatuses A = some stA) (hstAinf : stA.state = .infected)
    (hstAdid : stA.diseaseId = some dId)
    (hdis : lookupA ds.diseases dId = some disease)
    (hrec : disease.recoveryRate = 0) (hmort : disease.mortalityRate = 0)
    (hstB : lookupA ds.healthStatuses B = some stB) (hstBsus : stB.state = .susceptible)
    (htrans : 1 ≤ disease.transmissionRate *
      contactFactor (readRel w.relations A B).trust)
    (hrd : ∀ x, 0 ≤ rd x) (hmd : ∀ x, 0 ≤ md x)
    (htd : ∀ x y, 0 ≤ td x y ∧ td x y < 1) :
    ∃ st', lookupA (diseaseUpdate w ds rd md td).2.healthStatuses B = some st' ∧
      st'.state = .exposed := by
  have hupd : (diseaseUpdate w ds rd md td).2 =
      (spreadDisease w
        (mapValsK
          (fun k st => updateIndividualHealth ds.diseases st w.time (rd k) (md k))
          ds.healthStatuses) ds.diseases td).2.foldl
        (fun acc inf => infectSystem acc w.time inf.1 inf.2)
        { ds with
          healthStatuses :=
            mapValsK
              (fun k st => updateIndividualHealth ds.diseases st w.time (rd k) (md k))
              ds.healthStatuses } := rfl
  have hA1 : lookupA
      (mapValsK (fun k st => updateIndividualHealth ds.diseases st w.time (rd k) (md k))
        ds.healthStatuses) A = some stA := by
    rw [lookupA_mapValsK, hstA]
    simp only [Option.map_some', Option.some_inj]
    exact updateIndividualHealth_infected_noroll ds.diseases stA w.time (rd A) (md A) dId
      disease hstAdid hdis hstAinf hrec hmort (hrd A) (hmd A)
  have hB1 : lookupA
      (mapValsK (fun k st => updateIndividualHealth ds.diseases st w.time (rd k) (md k))
        ds.healthStatuses) B = some stB := by
    rw [lookupA_mapValsK, hstB]
    simp only [Option.map_some', Option.some_inj]
    exact updateIndividualHealth_susceptible ds.diseases stB w.time (rd B) (md B) hstBsus
  have hmemB : (B, disease.id) ∈
      (spreadDisease w
        (mapValsK (fun k st => updateIndividualHealth ds.diseases st w.time (rd k) (md k))
          ds.healthStatuses) ds.diseases td).2 := by
    rw [spreadDisease]
    apply foldl_spreadOuter_hit w _ ds.diseases td A B dId cA cB stA stB disease hcAid
      hcBid hAB hA1 hstAinf hstAdid hdis hB1 hstBsus ?hmemloc htrans (htd A B).2 _ _
      ?hmemall ?hpres
    case hmemloc =>
      rw [getCharactersAt]
      apply List.mem_filter.mpr
      constructor
      · exact List.mem_map_of_mem _ hcB
      · simp [hloc]
    case hmemall => exact List.mem_map_of_mem _ hcA
    case hpres => intro f t; rfl
  have hfin := infectFold_exposes w.time _ B
    { ds with
      healthStatuses :=
        mapValsK (fun k st => updateIndividualHealth ds.diseases st w.time (rd k) (md k))
          ds.healthStatuses } stB ⟨disease.id, hmemB⟩ hB1 hstBsus
  rw [hupd]
  obtain ⟨st', hst', hstate⟩ := Option.map_eq_some'.mp hfin
  exact ⟨st', hst', hstate⟩

/-- C5 counterexample: with `transmissionRate = 1` and the default (trust 0)
relation, the contact factor is 0.75 > 0, yet the admissible draw 0.8 fails
the transmission roll and the susceptible co-located character stays
susceptible after `Disease.update()` — exposure is not guaranteed whenever
the contact factor is merely positive. -/
theorem disease_exposure_counterexample :
    (0 : ℚ) < contactFactor (readRel ([] : RelationGraph) "a" "b").trust ∧
    fixtureDisease.transmissionRate = 1 ∧
    ((0 : ℚ) ≤ 4 / 5 ∧ (4 : ℚ) / 5 < 1) ∧
    ∃ st', lookupA (diseaseUpdate
        (fixtureWorld [("a", fixtureCharacter "a" "town"), ("b", fixtureCharacter "b" "town")]
          [])
        fixtureDiseaseSystem (fun _ => 1 / 2) (fun _ => 1 / 2)
        (fun _ _ => 4 / 5)).2.healthStatuses "b" = some st' ∧
      st'.state = .susceptible := by
  refine ⟨by norm_num [contactFactor, readRel, readRelOpt, lookupA, DEFAULT_RELATION],
    rfl, by norm_num, fixtureSusceptible "b", ?_, rfl⟩
  norm_num [diseaseUpdate, mapValsK, updateIndividualHealth, rollSuccess, lookupA,
    fixtureDiseaseSystem, fixtureInfected, fixtureSusceptible, fixtureDisease,
    spreadDisease, spreadOuter, spreadInner, getAllCharacters, getCharactersAt,
    fixtureWorld, fixtureCharacter, fixtureGlobal, getRelation, setA, contactFactor,
    DEFAULT_RELATION, infectSystem, infectStatus, insertNode, updateGlobalPlagueState,
    diseaseStateCount]
  exact fun h => absurd h (by decide)

/-- Witness for the amended C5: with trust 1 the contact factor is 1 and the
exposure happens for the concrete draws. -/
theorem disease_exposure_guaranteed_witness :
    ∃ st', lookupA (diseaseUpdate
        (fixtureWorld [("a", fixtureCharacter "a" "town"), ("b", fixtureCharacter "b" "town")]
          [("a", [("b", { DEFAULT_RELATION with trust := 1 })])])
        fixtureDiseaseSystem (fun _ => 1 / 2) (fun _ => 1 / 2)
        (fun _ _ => 4 / 5)).2.healthStatuses "b" = some st' ∧
      st'.state = .exposed :=
  disease_exposure_guaranteed
    (fixtureWorld [("a", fixtureCharacter "a" "town"), ("b", fixtureCharacter "b" "town")]
      [("a", [("b", { DEFAULT_RELATION with trust := 1 })])])
    fixtureDiseaseSystem (fun _ => 1 / 2) (fun _ => 1 / 2) (fun _ _ => 4 / 5)
    "a" "b" "d" (fixtureCharacter "a" "town") (fixtureCharacter "b" "town")
    (fixtureInfected "a") (fixtureSusceptible "b") fixtureDisease
    (by decide) (List.mem_cons_self _ _) rfl
    (List.mem_cons_of_mem _ (List.mem_cons_self _ _)) rfl rfl
    rfl rfl rfl rfl rfl rfl rfl rfl
    (by norm_num [readRel, readRelOpt, lookupA, contactFactor, fixtureDisease,
      fixtureWorld, DEFAULT_RELATION])
    (fun x => by norm_num) (fun x => by norm_num)
    (fun x y => by constructor <;> norm_num)

/-- C1 counterexample: mutual reciprocity above the threshold is NOT required.
In the two-node graph where trust(a→b) = 0.1 and trust(b→a) = 0.6, `getClusters`
at threshold 0.5 places "a" and "b" in one common cluster even though
trust(a→b) = 0.1 does not exceed the threshold 0.5: the BFS seeded at "a" walks
the friendship edge a→b (which only needs trust(a→b) > 0, via `getFriends`) and
admits "b" because the REVERSE trust trust(b→a) = 0.6 exceeds the threshold.
A pair where only one direction's trust exceeds t is therefore clustered. -/
theorem getClusters_one_directional_counterexample :
    getClusters (pairGraph (1/10) (6/10)) (1/2) = [["a", "b"]] ∧ ¬((1:ℚ)/2 < 1/10) := by
  have h1 : (0:ℚ) < 1/10 := by norm_num
  have h1' : (0:ℚ) < (10:ℚ)⁻¹ := by norm_num
  have h2 : (0:ℚ) < 6/10 := by norm_num
  have h3 : (1:ℚ)/2 < 6/10 := by norm_num
  have h3' : (2:ℚ)⁻¹ < 6/10 := by norm_num
  refine ⟨?_, by norm_num⟩
  simp [getClusters, pairGraph, allNodesOf, insertNode, graphSize, bfsLoop, getFriends,
    getRelation, lookupA, setA, DEFAULT_RELATION, h1, h1', h2, h3, h3']

set_option maxHeartbeats 1600000 in
/-- C1 (amended): for the two-node graph with trust(a→b) = tab and
trust(b→a) = tba and any threshold t > 0, `getClusters` puts "a" and "b" in a
common cluster **iff** trust(a→b) > 0 AND trust(b→a) > t.  The BFS link
condition is asymmetric: the forward edge must merely be a friendship edge
(trust > 0, from `getFriends`), while only the reverse edge is compared against
the threshold; mutual above-threshold trust is not required (and, because
`visited` persists across seeds, the characterization is exactly this
asymmetric conjunction, not its symmetrization). -/
theorem getClusters_pair_characterization (tab tba t : ℚ) (ht : 0 < t) :
    (∃ c ∈ getClusters (pairGraph tab tba) t, "a" ∈ c ∧ "b" ∈ c) ↔ (0 < tab ∧ t < tba) := by
  by_cases h1 : 0 < tab
  · by_cases h2 : t < tba
    · have h3 : 0 < tba := lt_trans ht h2
      simp [getClusters, pairGraph, allNodesOf, insertNode, graphSize, bfsLoop, getFriends,
        getRelation, lookupA, setA, DEFAULT_RELATION, h1, h2, h3]
    · by_cases h3 : 0 < tba
      · simp [getClusters, pairGraph, allNodesOf, insertNode, graphSize, bfsLoop, getFriends,
          getRelation, lookupA, setA, DEFAULT_RELATION, h1, h2, h3]
      · simp [getClusters, pairGraph, allNodesOf, insertNode, graphSize, bfsLoop, getFriends,
          getRelation, lookupA, setA, DEFAULT_RELATION, h1, h2, h3]
  · by_cases h3 : 0 < tba
    · simp [getClusters, pairGraph, allNodesOf, insertNode, graphSize, bfsLoop, getFriends,
        getRelation, lookupA, setA, DEFAULT_RELATION, h1, h3]
    · simp [getClusters, pairGraph, allNodesOf, insertNode, graphSize, bfsLoop, getFriends,
        getRelation, lookupA, setA, DEFAULT_RELATION, h1, h3]

/-- Witness for the C1 theorem at tab = 1, tba = 1, t = 1/2: the hypothesis
0 < 1/2 holds and the characterization evaluates at these inputs. -/
theorem getClusters_pair_characterization_witness :
    (0:ℚ) < 1/2 ∧
      ((∃ c ∈ getClusters (pairGraph 1 1) (1/2), "a" ∈ c ∧ "b" ∈ c) ↔
        ((0:ℚ) < 1 ∧ (1:ℚ)/2 < 1)) :=
  ⟨by norm_num, getClusters_pair_characterization 1 1 (1/2) (by norm_num)⟩

end MathWorld
